import Mathlib

/-! process-payments: webhook reconciliation core

A shallow embedding of the Go packages `models`, `repository`, `services`,
`controllers` and `utils` of the repository, followed by theorems about them.

Conventions of the embedding

* Go `int64` values are `Int`; arithmetic that can overflow goes through `wrap64`.
* A Go `error` result is `Option GoError` (`none` is `nil`); a `(T, error)` result is
  `Except GoError T`.
* Go pointers that the code dereferences are `Option`; dereferencing `none` is a run-time
  panic, recorded as `Outcome.panic`.
* The MongoDB collection is the list of its documents in natural (insertion) order.
  Every driver call may be failed by the storage layer; the error it then returns is
  given by `mongo.Faults`.
* The payment provider is a set of lookup functions (`stripe.Api`); `none` is a failed call.
* Every driver call and every provider call is appended to the trace `World.calls`.
-/

namespace ProcessPayments

/-! ## Machine integers and time -/

/-- Two's-complement wrap-around of a mathematical integer into the `int64` range. -/
def wrap64 (x : Int) : Int := (x + 2 ^ 63) % 2 ^ 64 - 2 ^ 63

/-- Go `float32(n)` for an `int64` value `n`: the nearest value with a 24-bit significand,
ties to even. The result is always an integer, returned as a rational. -/
def float32OfInt64 (n : Int) : Rat :=
  let m := n.natAbs
  if m < 2 ^ 24 then (n : Rat)
  else
    let e := Nat.log2 m - 23
    let q := m / 2 ^ e
    let r := m % 2 ^ e
    let half := 2 ^ (e - 1)
    let q1 := if half < r ∨ (r = half ∧ q % 2 = 1) then q + 1 else q
    ((n.sign * ((q1 * 2 ^ e : Nat) : Int) : Int) : Rat)

namespace time

/-- A Go `time.Time`, as nanoseconds since the Unix epoch. -/
abbrev Time := Int

/-- Go `time.Unix(sec, nsec)`. -/
def Unix (sec nsec : Int) : Time := sec * 1000000000 + nsec

/-- Go `t.Before(u)`. -/
def Before (t u : Time) : Bool := decide (t < u)

/-- Go `t.UnixMilli()`: whole milliseconds since the epoch, rounded down. -/
def UnixMilli (t : Time) : Int := t / 1000000

end time

/-! ## package models -/

namespace models

structure UserInSubscription where
  Email : String
  Name : String
  CustomerId : String
deriving DecidableEq, Repr

/-- The plan snapshot; `Price` is a `float32` in the source, here its exact value. -/
structure PlanInSubscription where
  SessionId : String
  ProductId : String
  Price : Rat
deriving DecidableEq, Repr

/-- The stored document. `ID` is the Mongo `_id` (`omitempty`): `0` is the zero ObjectID,
which is left out of the encoded document. -/
structure Subscription where
  ID : Nat
  SubscriptionID : String
  User : UserInSubscription
  Plan : PlanInSubscription
  InvoiceLink : String
  InvoicePDF : String
  InvoiceNumber : String
  IsTest : Bool
  IsOneTime : Bool
  IsCanceled : Bool
  UserId : String
  Status : String
  EndsAt : Int
  CreatedAt : Int
  UpdatedAt : Int
  RenewsAt : Int
deriving DecidableEq, Repr

end models

/-! ## The MongoDB driver (external), as far as the repository uses it -/

namespace mongo

/-- Errors a driver call can return: `ErrNoDocuments` (the sentinel of the driver) or
any other error (time-out, network, write error). -/
inductive DriverError where
  | ErrNoDocuments
  | other
deriving DecidableEq, Repr

/-- The two filters of the repository: `bson.M{"subscriptionId": v}` and
`bson.M{"userId": v}`. -/
inductive Filter where
  | subscriptionId (v : String)
  | userId (v : String)
deriving DecidableEq, Repr

/-- Whether a document matches a filter. -/
def Filter.matches (f : Filter) (d : models.Subscription) : Bool :=
  match f with
  | .subscriptionId v => d.SubscriptionID == v
  | .userId v => d.UserId == v

/-- What the storage layer does to the driver calls of one run: for each kind of call,
the error with which it fails, if it fails. -/
structure Faults where
  findOne : Option DriverError
  insertOne : Option DriverError
  replaceOne : Option DriverError
  deleteOne : Option DriverError
deriving DecidableEq, Repr

/-- A storage layer on which every call goes through. -/
def Faults.none : Faults := ⟨Option.none, Option.none, Option.none, Option.none⟩

end mongo

/-! ## The stripe-go types (external), as far as the service reads them -/

namespace stripe

structure Customer where
  ID : String
  Email : String
  Name : String
deriving DecidableEq, Repr

structure Invoice where
  ID : String
  HostedInvoiceURL : String
  InvoicePDF : String
  Number : String
  Livemode : Bool
  Total : Int
deriving DecidableEq, Repr

structure Product where
  ID : String
deriving DecidableEq, Repr

/-- A price; `Product` is a pointer in stripe-go. -/
structure Price where
  Product : Option Product
deriving DecidableEq, Repr

/-- A subscription item; `Price` is a pointer in stripe-go. -/
structure SubscriptionItem where
  CurrentPeriodEnd : Int
  Price : Option Price
deriving DecidableEq, Repr

structure SubscriptionItemList where
  Data : List SubscriptionItem
deriving DecidableEq, Repr

/-- A subscription; `Items` and `LatestInvoice` are pointers in stripe-go. -/
structure Subscription where
  ID : String
  Status : String
  Created : Int
  CancelAtPeriodEnd : Bool
  Items : Option SubscriptionItemList
  LatestInvoice : Option Invoice
deriving DecidableEq, Repr

/-- A checkout session; `Customer`, `Invoice` and `Subscription` are pointers in stripe-go. -/
structure CheckoutSession where
  ID : String
  Mode : String
  ClientReferenceID : String
  Customer : Option Customer
  Invoice : Option Invoice
  Subscription : Option Subscription
deriving DecidableEq, Repr

/-- The constant `stripe.CheckoutSessionModeSubscription`. -/
def CheckoutSessionModeSubscription : String := "subscription"

/-- The raw payload `e.Data.Raw` of an event, given by what `json.Unmarshal` makes of it
for each of the two target types the service uses; `none` is a decoding error. -/
structure EventData where
  asSubscription : Option Subscription
  asCheckoutSession : Option CheckoutSession
deriving DecidableEq, Repr

/-- A verified event envelope; `Type_` is the field `Type` of stripe-go. -/
structure Event where
  Type_ : String
  Data : EventData
deriving DecidableEq, Repr

/-- The provider's remote API during one run: each lookup answers with the object or
fails (`none`). -/
structure Api where
  customerGet : String → Option Customer
  invoiceGet : String → Option Invoice
  subscriptionGet : String → Option Subscription

end stripe

/-! ## Errors -/

/-- The error values of the repository and service packages (each `errors.New` variable is
one value), and driver errors that the repository passes on unchanged. -/
inductive GoError where
  | repository_ErrSubscriptionAlreadyExists
  | repository_ErrSubscriptionNotFound
  | repository_ErrorUpdatingSubscription
  | repository_ErrorDeletingSubscription
  | driver (e : mongo.DriverError)
  | ErrWebhookNotFromStripe
  | ErrReadingRequestBody
  | ErrorVerifyingSignature
  | ErrorHandlingStripeEvent
  | ErrParsingWebhookJSON
  | ErrSubscriptionNotFound
  | ErrCustomUserIdNotExist
  | ErrGettingInvoice
  | ErrGettingSubscription
  | ErrCreatingCustomer
  | ErrGettingCustomer
  | ErrorGettingProduct
  | ErrorCreatingCheckout
deriving DecidableEq, Repr

/-- Go `err.Error()`. -/
def GoError.Error : GoError → String
  | .repository_ErrSubscriptionAlreadyExists => "subscription already exists"
  | .repository_ErrSubscriptionNotFound => "subscription not found"
  | .repository_ErrorUpdatingSubscription => "error updating subscription"
  | .repository_ErrorDeletingSubscription => "error deleting subscription"
  | .driver .ErrNoDocuments => "mongo: no documents in result"
  | .driver .other => "mongo: storage error"
  | .ErrWebhookNotFromStripe => "webhook is not coming from stripe"
  | .ErrReadingRequestBody => "error reading request body"
  | .ErrorVerifyingSignature => "error verifying webhook signature"
  | .ErrorHandlingStripeEvent => "error handling stripe event"
  | .ErrParsingWebhookJSON => "error parsing webhook JSON"
  | .ErrSubscriptionNotFound => "subscription not found"
  | .ErrCustomUserIdNotExist => "custom user id does not exist"
  | .ErrGettingInvoice => "error getting invoice"
  | .ErrGettingSubscription => "error getting subscription"
  | .ErrCreatingCustomer => "error creating customer"
  | .ErrGettingCustomer => "error getting customer"
  | .ErrorGettingProduct => "error getting product"
  | .ErrorCreatingCheckout => "error creating checkout session"

/-! ## The world a run acts on -/

/-- One call that leaves the process: to the storage driver or to the provider. -/
inductive Call where
  | FindOne (f : mongo.Filter)
  | InsertOne (d : models.Subscription)
  | ReplaceOne (f : mongo.Filter) (d : models.Subscription)
  | DeleteOne (f : mongo.Filter)
  | customerGet (id : String)
  | invoiceGet (id : String)
  | subscriptionGet (id : String)
deriving DecidableEq, Repr

/-- Whether a call writes to the collection. -/
def Call.isWrite : Call → Bool
  | .InsertOne _ => true
  | .ReplaceOne _ _ => true
  | .DeleteOne _ => true
  | _ => false

/-- The collection `transactions` and the trace of calls made so far. -/
structure World where
  docs : List models.Subscription
  calls : List Call
deriving DecidableEq, Repr

/-- What the outside supplies to one run: the clock, the provider and the storage layer. -/
structure Env where
  now : time.Time
  api : stripe.Api
  faults : mongo.Faults

/-- The result of running a handler: `nil`, an error, or a run-time panic. -/
inductive Outcome where
  | ok
  | err (e : GoError)
  | panic
deriving DecidableEq, Repr

/-- Appends a call to the trace. -/
def World.log (w : World) (c : Call) : World := { w with calls := w.calls ++ [c] }

namespace mongo

/-- An ObjectID that no document of the collection carries and that is not the zero ID. -/
def freshID (docs : List models.Subscription) : Nat := (docs.map (·.ID)).foldr max 0 + 1

/-- Replaces the first element that satisfies `p` by `new` applied to it. -/
def replaceFirst {α : Type} (p : α → Bool) (new : α → α) : List α → List α
  | [] => []
  | x :: xs => if p x then new x :: xs else x :: replaceFirst p new xs

/-- Driver `collection.FindOne(ctx, filter).Decode(&doc)`: the first matching document,
`ErrNoDocuments` when none matches. -/
def FindOne (w : World) (fault : Option DriverError) (f : Filter) :
    Except DriverError models.Subscription × World :=
  match fault with
  | some e => (.error e, w.log (.FindOne f))
  | none =>
    match w.docs.find? f.matches with
    | some d => (.ok d, w.log (.FindOne f))
    | none => (.error .ErrNoDocuments, w.log (.FindOne f))

/-- Driver `collection.InsertOne(ctx, doc)`: appends the document; a document without `_id`
gets a fresh one, a document whose `_id` is taken is refused. -/
def InsertOne (w : World) (fault : Option DriverError) (d : models.Subscription) :
    Option DriverError × World :=
  match fault with
  | some e => (some e, w.log (.InsertOne d))
  | none =>
    if d.ID = 0 then
      (none, { docs := w.docs ++ [{ d with ID := freshID w.docs }],
               calls := w.calls ++ [.InsertOne d] })
    else if w.docs.any (fun x => x.ID == d.ID) then (some .other, w.log (.InsertOne d))
    else (none, { docs := w.docs ++ [d], calls := w.calls ++ [.InsertOne d] })

/-- Driver `collection.ReplaceOne(ctx, filter, doc)`: replaces the first matching document
and keeps its `_id`; when no document matches, the call succeeds and changes nothing; a
replacement that carries another `_id` is refused. -/
def ReplaceOne (w : World) (fault : Option DriverError) (f : Filter) (d : models.Subscription) :
    Option DriverError × World :=
  match fault with
  | some e => (some e, w.log (.ReplaceOne f d))
  | none =>
    match w.docs.find? f.matches with
    | none => (none, w.log (.ReplaceOne f d))
    | some old =>
      if d.ID ≠ 0 ∧ d.ID ≠ old.ID then (some .other, w.log (.ReplaceOne f d))
      else
        (none, { docs := replaceFirst f.matches (fun o => { d with ID := o.ID }) w.docs,
                 calls := w.calls ++ [.ReplaceOne f d] })

/-- Driver `collection.DeleteOne(ctx, filter)`: removes the first matching document; when
no document matches, the call succeeds (with a deleted count of 0) and changes nothing. -/
def DeleteOne (w : World) (fault : Option DriverError) (f : Filter) :
    Option DriverError × World :=
  match fault with
  | some e => (some e, w.log (.DeleteOne f))
  | none => (none, { docs := w.docs.eraseP f.matches, calls := w.calls ++ [.DeleteOne f] })

end mongo

/-! ## package repository -/

namespace repository

/-- Method `MongoPaymentRepository.Get`. -/
def Get (fl : mongo.Faults) (w : World) (subscriptionId : String) :
    Except GoError models.Subscription × World :=
  match mongo.FindOne w fl.findOne (.subscriptionId subscriptionId) with
  | (.ok subscription, w1) => (.ok subscription, w1)
  | (.error .ErrNoDocuments, w1) => (.error .repository_ErrSubscriptionNotFound, w1)
  | (.error e, w1) => (.error (.driver e), w1)

/-- Method `MongoPaymentRepository.GetByUserId`. -/
def GetByUserId (fl : mongo.Faults) (w : World) (userId : String) :
    Except GoError models.Subscription × World :=
  match mongo.FindOne w fl.findOne (.userId userId) with
  | (.ok subscription, w1) => (.ok subscription, w1)
  | (.error .ErrNoDocuments, w1) => (.error .repository_ErrSubscriptionNotFound, w1)
  | (.error e, w1) => (.error (.driver e), w1)

/-- Method `MongoPaymentRepository.Save`. -/
def Save (fl : mongo.Faults) (w : World) (subs : models.Subscription) :
    Option GoError × World :=
  match Get fl w subs.SubscriptionID with
  | (.ok _, w1) => (some .repository_ErrSubscriptionAlreadyExists, w1)
  | (.error _, w1) =>
    match mongo.InsertOne w1 fl.insertOne subs with
    | (some e, w2) => (some (.driver e), w2)
    | (none, w2) => (none, w2)

/-- Method `MongoPaymentRepository.Update`. -/
def Update (fl : mongo.Faults) (w : World) (subscription : models.Subscription) :
    Option GoError × World :=
  match mongo.ReplaceOne w fl.replaceOne (.subscriptionId subscription.SubscriptionID)
      subscription with
  | (some _, w1) => (some .repository_ErrorUpdatingSubscription, w1)
  | (none, w1) => (none, w1)

/-- Method `MongoPaymentRepository.Delete`. -/
def Delete (fl : mongo.Faults) (w : World) (subscriptionId : String) :
    Option GoError × World :=
  match mongo.DeleteOne w fl.deleteOne (.subscriptionId subscriptionId) with
  | (some .ErrNoDocuments, w1) => (some .repository_ErrSubscriptionNotFound, w1)
  | (some _, w1) => (some .repository_ErrorDeletingSubscription, w1)
  | (none, w1) => (none, w1)

/-- Method `MongoPaymentRepository.IsValid`; `now` is the value of `time.Now()`. -/
def IsValid (fl : mongo.Faults) (now : time.Time) (w : World) (userId : String) :
    Bool × World :=
  match GetByUserId fl w userId with
  | (.error _, w1) => (false, w1)
  | (.ok subs, w1) =>
    let status := subs.Status
    let expiresAt := subs.EndsAt
    if subs.IsOneTime && (status == "active" || status == "paid" || status == "complete")
        && expiresAt == -1 then (true, w1)
    else
      ((status == "active" || status == "trialing")
        && time.Before now (time.Unix (Int.tdiv expiresAt 1000) 0), w1)

end repository

/-! ## package services -/

namespace services

/-- Constant `TwelveHoursInMilliseconds` (an `int64`). -/
def TwelveHoursInMilliseconds : Int := 3600 * 12 * 1000

/-- The fields of `StripeService`; its `repo` is the collection held by the `World`. -/
structure StripeService where
  stripeSecretKey : String
  stripeWebhookSecretKey : String
  products : List String
  isProd : Bool
deriving DecidableEq, Repr

/-- Initial value of the package variable `AllowedStripeIPs`. -/
def AllowedStripeIPs : List String :=
  [ "3.18.12.63", "3.130.192.231", "13.235.14.237", "13.235.122.149", "18.211.135.69",
    "35.154.171.200", "52.15.183.38", "54.88.130.119", "54.88.130.237", "54.187.174.169",
    "54.187.205.235", "54.187.216.72" ]

/-- Method `StripeService.GetCustomer`. -/
def GetCustomer (env : Env) (w : World) (customerId : String) :
    Except GoError stripe.Customer × World :=
  match env.api.customerGet customerId with
  | none => (.error .ErrGettingCustomer, w.log (.customerGet customerId))
  | some customerData => (.ok customerData, w.log (.customerGet customerId))

/-- Method `StripeService.GetInvoice`. -/
def GetInvoice (env : Env) (w : World) (invoiceId : String) :
    Except GoError stripe.Invoice × World :=
  match env.api.invoiceGet invoiceId with
  | none => (.error .ErrGettingInvoice, w.log (.invoiceGet invoiceId))
  | some invoiceData => (.ok invoiceData, w.log (.invoiceGet invoiceId))

/-- Method `StripeService.GetSubscription`. -/
def GetSubscription (env : Env) (w : World) (subscriptionId : String) :
    Except GoError stripe.Subscription × World :=
  match env.api.subscriptionGet subscriptionId with
  | none => (.error .ErrGettingSubscription, w.log (.subscriptionGet subscriptionId))
  | some subscriptionData => (.ok subscriptionData, w.log (.subscriptionGet subscriptionId))

/-- The expression `x.Items.Data[0]`: `none` when it panics (nil `Items`, empty `Data`). -/
def firstItem (x : stripe.Subscription) : Option stripe.SubscriptionItem :=
  match x.Items with
  | none => none
  | some items => items.Data.head?

/-- The expression `item.Price.Product.ID`: `none` when it panics (nil `Price` or `Product`). -/
def productID (item : stripe.SubscriptionItem) : Option String :=
  match item.Price with
  | none => none
  | some price =>
    match price.Product with
    | none => none
    | some product => some product.ID

/-- The two statements that compute `expireDateTimestamp` from `CurrentPeriodEnd`. -/
def expireDateTimestamp (currentPeriodEnd : Int) : Int :=
  wrap64 (wrap64 (currentPeriodEnd * 1000) + TwelveHoursInMilliseconds)

/-- The expression `float32(invoiceData.Total / 100)`; the division is Go integer division. -/
def planPrice (total : Int) : Rat := float32OfInt64 (Int.tdiv total 100)

/-- The struct literal `subscriptionModel` of `handleSubscriptionPaymentCompletion`; `now` is
the value of `time.Now()`. -/
def checkoutRecord (now : time.Time) (cs : stripe.CheckoutSession)
    (customerData : stripe.Customer) (invoiceData : stripe.Invoice)
    (subscriptionData : stripe.Subscription) (item : stripe.SubscriptionItem)
    (productId : String) : models.Subscription :=
  { ID := 0
    UserId := cs.ClientReferenceID
    SubscriptionID := subscriptionData.ID
    InvoiceLink := invoiceData.HostedInvoiceURL
    InvoicePDF := invoiceData.InvoicePDF
    InvoiceNumber := invoiceData.Number
    IsTest := invoiceData.Livemode
    IsOneTime := false
    Status := subscriptionData.Status
    EndsAt := expireDateTimestamp item.CurrentPeriodEnd
    CreatedAt := wrap64 (subscriptionData.Created * 1000)
    IsCanceled := false
    RenewsAt := expireDateTimestamp item.CurrentPeriodEnd
    UpdatedAt := time.UnixMilli now
    User := { Email := customerData.Email, Name := customerData.Name,
              CustomerId := customerData.ID }
    Plan := { SessionId := cs.ID, ProductId := productId,
              Price := planPrice invoiceData.Total } }

/-- Method `StripeService.handleSubscriptionPaymentCompletion`. -/
def handleSubscriptionPaymentCompletion (env : Env) (w : World)
    (checkoutSession : stripe.CheckoutSession) : Outcome × World :=
  match checkoutSession.Customer with
  | none => (.panic, w)
  | some customerRef =>
  match GetCustomer env w customerRef.ID with
  | (.error err, w1) => (.err err, w1)
  | (.ok customerData, w1) =>
  let customerUserId := checkoutSession.ClientReferenceID
  if customerUserId = "" then (.err .ErrCustomUserIdNotExist, w1) else
  match checkoutSession.Invoice with
  | none => (.panic, w1)
  | some invoiceRef =>
  match GetInvoice env w1 invoiceRef.ID with
  | (.error err, w2) => (.err err, w2)
  | (.ok invoiceData, w2) =>
  match checkoutSession.Subscription with
  | none => (.panic, w2)
  | some subscriptionRef =>
  match GetSubscription env w2 subscriptionRef.ID with
  | (.error err, w3) => (.err err, w3)
  | (.ok subscriptionData, w3) =>
  match firstItem subscriptionData with
  | none => (.panic, w3)
  | some item =>
  match productID item with
  | none => (.panic, w3)
  | some productId =>
  let subscriptionModel := checkoutRecord env.now checkoutSession customerData invoiceData
    subscriptionData item productId
  match repository.Save env.faults w3 subscriptionModel with
  | (none, w4) => (.ok, w4)
  | (some _, w4) =>
    match repository.Update env.faults w4 subscriptionModel with
    | (some err, w5) => (.err err, w5)
    | (none, w5) => (.ok, w5)

/-- Method `StripeService.handleSubscriptionUpdate`. -/
def handleSubscriptionUpdate (env : Env) (w : World) (subscription : stripe.Subscription) :
    Outcome × World :=
  match firstItem subscription with
  | none => (.panic, w)
  | some item =>
  match subscription.LatestInvoice with
  | none => (.panic, w)
  | some invoiceRef =>
  match GetInvoice env w invoiceRef.ID with
  | (.error err, w1) => (.err err, w1)
  | (.ok invoiceData, w1) =>
  match repository.Get env.faults w1 subscription.ID with
  | (.error _, w2) => (.err .ErrSubscriptionNotFound, w2)
  | (.ok subscriptionData, w2) =>
  match productID item with
  | none => (.panic, w2)
  | some productId =>
  let updated : models.Subscription :=
    { subscriptionData with
      Plan := { ProductId := productId, Price := planPrice invoiceData.Total,
                SessionId := subscriptionData.Plan.SessionId }
      InvoicePDF := invoiceData.InvoicePDF
      InvoiceLink := invoiceData.HostedInvoiceURL
      InvoiceNumber := invoiceData.Number
      Status := subscription.Status
      EndsAt := expireDateTimestamp item.CurrentPeriodEnd
      RenewsAt := expireDateTimestamp item.CurrentPeriodEnd
      UpdatedAt := time.UnixMilli env.now
      IsCanceled := subscription.CancelAtPeriodEnd }
  match repository.Update env.faults w2 updated with
  | (some err, w3) => (.err err, w3)
  | (none, w3) => (.ok, w3)

/-- Method `StripeService.handleSubscriptionCancellation`. -/
def handleSubscriptionCancellation (env : Env) (w : World) (subscription : stripe.Subscription) :
    Outcome × World :=
  match repository.Get env.faults w subscription.ID with
  | (.error _, w1) => (.err .ErrSubscriptionNotFound, w1)
  | (.ok _, w1) =>
    match repository.Delete env.faults w1 subscription.ID with
    | (some err, w2) =>
      if err = .repository_ErrorDeletingSubscription then (.err err, w2) else (.ok, w2)
    | (none, w2) => (.ok, w2)

/-- An inbound HTTP request as the authenticator sees it: the address `c.ClientIP()`, the
header `Stripe-Signature`, the bytes of the body, and whether the transport fails while
the body is read. -/
structure Request where
  ClientIP : String
  StripeSignature : String
  Body : List UInt8
  readFails : Bool
deriving DecidableEq, Repr

/-- Constant `MaxBodyBytes` of `AuthenticateWebhook`. -/
def MaxBodyBytes : Nat := 65536

/-- The calls `io.ReadAll(http.MaxBytesReader(c.Writer, req.Body, MaxBodyBytes))`: the body,
or `none` when reading fails, which it does on a transport error and on a body longer than
the cap. -/
def readBody (req : Request) : Option (List UInt8) :=
  if req.readFails || decide (MaxBodyBytes < req.Body.length) then none else some req.Body

/-- The function `webhook.ConstructEvent(body, header, secret)` of stripe-go (external):
the verified event, or `none` when the signature check or the decoding rejects. -/
abbrev ConstructEvent := List UInt8 → String → String → Option stripe.Event

/-- Method `StripeService.AuthenticateWebhook`. The package variable `AllowedStripeIPs` is
passed in as `allowed` and its new value is returned with the result. -/
def AuthenticateWebhook (s : StripeService) (constructEvent : ConstructEvent)
    (allowed : List String) (c : Request) : Except GoError stripe.Event × List String :=
  let allowed1 := if !s.isProd then allowed ++ ["::1"] else allowed
  if !allowed1.contains c.ClientIP then (.error .ErrWebhookNotFromStripe, allowed1)
  else
    match readBody c with
    | none => (.error .ErrReadingRequestBody, allowed1)
    | some body =>
      match constructEvent body c.StripeSignature s.stripeWebhookSecretKey with
      | none => (.error .ErrorVerifyingSignature, allowed1)
      | some event => (.ok event, allowed1)

/-- Method `StripeService.HandleEvents`. -/
def HandleEvents (env : Env) (w : World) (e : stripe.Event) : Outcome × World :=
  if e.Type_ = "customer.subscription.updated" then
    match e.Data.asSubscription with
    | none => (.err .ErrParsingWebhookJSON, w)
    | some customerSubscription =>
      if customerSubscription.ID ≠ "" then
        handleSubscriptionUpdate env w customerSubscription
      else (.ok, w)
  else if e.Type_ = "customer.subscription.deleted" then
    match e.Data.asSubscription with
    | none => (.err .ErrParsingWebhookJSON, w)
    | some customerSubscription =>
      if customerSubscription.ID ≠ "" then
        handleSubscriptionCancellation env w customerSubscription
      else (.err .ErrSubscriptionNotFound, w)
  else if e.Type_ = "checkout.session.completed" then
    match e.Data.asCheckoutSession with
    | none => (.err .ErrParsingWebhookJSON, w)
    | some sessionData =>
      if sessionData.Mode = stripe.CheckoutSessionModeSubscription then
        handleSubscriptionPaymentCompletion env w sessionData
      else (.ok, w)
  else (.err .ErrorHandlingStripeEvent, w)

end services

/-! ## packages utils and controllers -/

namespace utils

/-- One call of `c.JSON(status, body)`: the status and the fields of the body (`data` is
`nil` in every call of the webhook handler). -/
structure Response where
  success : Bool
  status : Int
  error : String
  message : String
deriving DecidableEq, Repr

/-- Function `SendResponse`: writes one response to the context, after those already
written. -/
def SendResponse (sent : List Response) (success : Bool) (status : Int) (errMessage : String)
    (message : String) : List Response :=
  sent ++ [{ success := success, status := status, error := errMessage, message := message }]

end utils

namespace controllers

/-- What one run of the webhook handler does: the responses it sends in order, the event
for which it starts the detached `HandleEvents` (if it does), and the new value of
`AllowedStripeIPs`. -/
structure HandlerRun where
  responses : List utils.Response
  handled : Option stripe.Event
  allowed : List String
deriving DecidableEq, Repr

/-- Function `HandleStripeWebhooks` (the handler it returns). -/
def HandleStripeWebhooks (s : services.StripeService) (constructEvent : services.ConstructEvent)
    (allowed : List String) (c : services.Request) : HandlerRun :=
  match services.AuthenticateWebhook s constructEvent allowed c with
  | (.ok event, allowed1) =>
    { responses := utils.SendResponse [] true 200 "" "Webhook received successfully"
      handled := some event
      allowed := allowed1 }
  | (.error err, allowed1) =>
    { responses :=
        utils.SendResponse (utils.SendResponse [] false 400 err.Error "Webhook is not valid")
          true 200 "" "Webhook received successfully"
      handled := none
      allowed := allowed1 }

end controllers

/-- The values the package variable `AllowedStripeIPs` can take in a process that runs one
service: it holds the twelve published addresses and nothing else, except `"::1"` when the
service is not in production mode (every call in that mode appends it once more). -/
def services.allowedInvariant (isProd : Bool) (allowed : List String) : Bool :=
  services.AllowedStripeIPs.all (fun ip => allowed.contains ip) &&
    allowed.all (fun ip => services.AllowedStripeIPs.contains ip || (ip == "::1" && !isProd))

/-- The client address passes the origin check of the claim: it is one of the twelve
published addresses or, in non-production mode only, the loopback address `"::1"`. -/
def services.originAllowed (isProd : Bool) (ip : String) : Bool :=
  services.AllowedStripeIPs.contains ip || (ip == "::1" && !isProd)

/-! ## Example inputs -/

namespace Examples

/-- A stored record of user `user-42` for subscription `sub_1`, active, not one-time, whose
`EndsAt` is not a whole second. -/
def recordMidSecond : models.Subscription :=
  { ID := 1, SubscriptionID := "sub_1",
    User := { Email := "a@example.com", Name := "A", CustomerId := "cus_1" },
    Plan := { SessionId := "cs_1", ProductId := "prod_1", Price := 19 },
    InvoiceLink := "", InvoicePDF := "", InvoiceNumber := "", IsTest := false,
    IsOneTime := false, IsCanceled := false, UserId := "user-42", Status := "active",
    EndsAt := 1700000000999, CreatedAt := 0, UpdatedAt := 0, RenewsAt := 1700000000999 }

/-- A clock reading of 1700000000500 ms since the epoch. -/
def nowMidSecond : time.Time := 1700000000500000000

/-- The provider's customer `cus_1`. -/
def customer1 : stripe.Customer := { ID := "cus_1", Email := "a@example.com", Name := "A" }

/-- The provider's invoice `inv_1`, over 19.99 in minor units. -/
def invoice1 : stripe.Invoice :=
  { ID := "inv_1", HostedInvoiceURL := "https://invoice.example/inv_1",
    InvoicePDF := "https://invoice.example/inv_1.pdf", Number := "N-0001", Livemode := true,
    Total := 1999 }

/-- The single item of subscription `sub_1`, with period end 1700000000 s. -/
def item1 : stripe.SubscriptionItem :=
  { CurrentPeriodEnd := 1700000000, Price := some { Product := some { ID := "prod_1" } } }

/-- The provider's subscription `sub_1`. -/
def subscription1 : stripe.Subscription :=
  { ID := "sub_1", Status := "active", Created := 1690000000, CancelAtPeriodEnd := false,
    Items := some { Data := [item1] },
    LatestInvoice := some { ID := "inv_1", HostedInvoiceURL := "", InvoicePDF := "",
                            Number := "", Livemode := true, Total := 0 } }

/-- The checkout session of the scenario of the specification: subscription mode, client
reference `user-42`, invoice `inv_1`, subscription `sub_1`, customer `cus_1`. -/
def session1 : stripe.CheckoutSession :=
  { ID := "cs_1", Mode := "subscription", ClientReferenceID := "user-42",
    Customer := some { ID := "cus_1", Email := "", Name := "" },
    Invoice := some { ID := "inv_1", HostedInvoiceURL := "", InvoicePDF := "", Number := "",
                      Livemode := true, Total := 0 },
    Subscription := some { ID := "sub_1", Status := "", Created := 0,
                           CancelAtPeriodEnd := false, Items := none, LatestInvoice := none } }

/-- The event `checkout.session.completed` carrying `session1`. -/
def checkoutEvent : stripe.Event :=
  { Type_ := "checkout.session.completed",
    Data := { asSubscription := none, asCheckoutSession := some session1 } }

/-- A provider that knows `cus_1`, `inv_1` and `sub_1` and fails every other look-up. -/
def api1 : stripe.Api :=
  { customerGet := fun id => if id = "cus_1" then some customer1 else none,
    invoiceGet := fun id => if id = "inv_1" then some invoice1 else none,
    subscriptionGet := fun id => if id = "sub_1" then some subscription1 else none }

/-- A run at 1700000000500 ms against `api1` on a storage layer without failures. -/
def env1 : Env := { now := nowMidSecond, api := api1, faults := mongo.Faults.none }

/-- A redelivery one minute later: same provider, same storage layer. -/
def env1Later : Env := { env1 with now := nowMidSecond + 60000000000 }

/-- The event `customer.subscription.updated` carrying `subscription1`. -/
def updatedEvent : stripe.Event :=
  { Type_ := "customer.subscription.updated",
    Data := { asSubscription := some subscription1, asCheckoutSession := none } }

/-- The event `customer.subscription.updated` for `sub_1`, naming a latest invoice
`inv_404` that the provider does not return. -/
def updatedEventLostInvoice : stripe.Event :=
  { Type_ := "customer.subscription.updated",
    Data :=
      { asSubscription := some { subscription1 with
          LatestInvoice := some { ID := "inv_404", HostedInvoiceURL := "", InvoicePDF := "",
                                  Number := "", Livemode := true, Total := 0 } },
        asCheckoutSession := none } }

/-- The event `customer.subscription.deleted` carrying `subscription1`. -/
def deletedEvent : stripe.Event :=
  { Type_ := "customer.subscription.deleted",
    Data := { asSubscription := some subscription1, asCheckoutSession := none } }

/-- A `customer.subscription.deleted` event whose payload carries no subscription ID. -/
def deletedEventNoID : stripe.Event :=
  { Type_ := "customer.subscription.deleted",
    Data := { asSubscription := some { subscription1 with ID := "" },
              asCheckoutSession := none } }

/-- A stored record whose subscription ID is the empty string. -/
def recordNoID : models.Subscription := { recordMidSecond with SubscriptionID := "" }

/-- A second stored record, of another user and subscription. -/
def recordOther : models.Subscription :=
  { recordMidSecond with ID := 2, SubscriptionID := "sub_2", UserId := "user-7" }

/-- A run against `api1` on a storage layer that fails every deletion with an error other
than the driver's no-documents sentinel. -/
def envDeleteFails : Env :=
  { env1 with faults := { mongo.Faults.none with deleteOne := some .other } }

/-- A run against `api1` on a storage layer whose deletion returns the driver's
no-documents sentinel. -/
def envDeleteNoDocuments : Env :=
  { env1 with faults := { mongo.Faults.none with deleteOne := some .ErrNoDocuments } }

/-- A collection holding the record of `sub_1` and the record of `sub_2`. -/
def twoRecords : World := { docs := [recordMidSecond, recordOther], calls := [] }

/-- A collection holding one record, whose subscription ID is the empty string. -/
def worldNoID : World := { docs := [recordNoID], calls := [] }

/-- A subscription-mode checkout session without client reference, whose customer
`cus_1` the provider returns. -/
def sessionNoUser : stripe.CheckoutSession := { session1 with ClientReferenceID := "" }

/-- The event `checkout.session.completed` carrying `sessionNoUser`. -/
def checkoutEventNoUser : stripe.Event :=
  { Type_ := "checkout.session.completed",
    Data := { asSubscription := none, asCheckoutSession := some sessionNoUser } }

/-- The event `checkout.session.completed` for a subscription-mode session without client
reference whose customer `cus_404` the provider does not return. -/
def checkoutEventNoUserLostCustomer : stripe.Event :=
  { Type_ := "checkout.session.completed",
    Data :=
      { asSubscription := none,
        asCheckoutSession := some { sessionNoUser with
          Customer := some { ID := "cus_404", Email := "", Name := "" } } } }

/-- An event of a type the service does not handle, with a payload that would decode. -/
def invoicePaidEvent : stripe.Event :=
  { Type_ := "invoice.paid",
    Data := { asSubscription := some subscription1, asCheckoutSession := some session1 } }

/-- A service in production mode. -/
def prodService : services.StripeService :=
  { stripeSecretKey := "sk_live", stripeWebhookSecretKey := "whsec_1", products := ["prod_1"],
    isProd := true }

/-- A service in development mode. -/
def devService : services.StripeService := { prodService with isProd := false }

/-- A verifier that accepts exactly the body `[1, 2, 3]` with the header `"good"` under the
secret `whsec_1`, and then yields `checkoutEvent`. -/
def verifier1 : services.ConstructEvent := fun body header secret =>
  if body = [1, 2, 3] ∧ header = "good" ∧ secret = "whsec_1" then some checkoutEvent else none

/-- A request from the loopback address with a good body and signature. -/
def requestLoopback : services.Request :=
  { ClientIP := "::1", StripeSignature := "good", Body := [1, 2, 3], readFails := false }

/-- A request from the first published address with a good body and signature. -/
def requestStripe : services.Request :=
  { ClientIP := "3.18.12.63", StripeSignature := "good", Body := [1, 2, 3], readFails := false }

/-- A request from an address that is not published, with a good body and signature. -/
def requestStranger : services.Request :=
  { ClientIP := "203.0.113.9", StripeSignature := "good", Body := [1, 2, 3],
    readFails := false }

/-- A request from the first published address whose body is one byte over the cap. -/
def requestTooLong : services.Request :=
  { ClientIP := "3.18.12.63", StripeSignature := "good", Body := List.replicate 65537 0,
    readFails := false }

/-- A request from the first published address with a good body and a bad signature. -/
def requestBadSignature : services.Request :=
  { ClientIP := "3.18.12.63", StripeSignature := "bad", Body := [1, 2, 3], readFails := false }

/-- A `customer.subscription.updated` event whose payload carries no subscription ID; its
invoice `inv_1` is returned by the provider and it has an item. -/
def updatedEventNoID : stripe.Event :=
  { Type_ := "customer.subscription.updated",
    Data := { asSubscription := some { subscription1 with ID := "" },
              asCheckoutSession := none } }

/-- A run against `api1` on a storage layer that fails every look-up with an error other
than the driver's no-documents sentinel (a time-out, say) and lets every write through. -/
def envLookupFails : Env :=
  { env1 with faults := { mongo.Faults.none with findOne := some .other } }

/-- A run against `api1` on a storage layer that fails every insert and lets every other
call through. -/
def envInsertFails : Env :=
  { env1 with faults := { mongo.Faults.none with insertOne := some .other } }

/-- The record that the checkout of the scenario builds for `sub_1`. -/
def record1 : models.Subscription :=
  services.checkoutRecord nowMidSecond session1 customer1 invoice1 subscription1 item1 "prod_1"

/-- A `customer.subscription.updated` event for `sub_1` whose item list is empty. -/
def updatedEventNoItems : stripe.Event :=
  { Type_ := "customer.subscription.updated",
    Data := { asSubscription := some { subscription1 with Items := some { Data := [] } },
              asCheckoutSession := none } }

/-- A `customer.subscription.updated` event for `sub_1` without latest-invoice reference. -/
def updatedEventNoInvoice : stripe.Event :=
  { Type_ := "customer.subscription.updated",
    Data := { asSubscription := some { subscription1 with LatestInvoice := none },
              asCheckoutSession := none } }

/-- A subscription-mode `checkout.session.completed` event without customer reference. -/
def checkoutEventNoCustomer : stripe.Event :=
  { Type_ := "checkout.session.completed",
    Data := { asSubscription := none,
              asCheckoutSession := some { session1 with Customer := none } } }

/-- A subscription-mode `checkout.session.completed` event without invoice reference. -/
def checkoutEventNoInvoice : stripe.Event :=
  { Type_ := "checkout.session.completed",
    Data := { asSubscription := none,
              asCheckoutSession := some { session1 with Invoice := none } } }

/-- A subscription-mode `checkout.session.completed` event without subscription
reference. -/
def checkoutEventNoSubscription : stripe.Event :=
  { Type_ := "checkout.session.completed",
    Data := { asSubscription := none,
              asCheckoutSession := some { session1 with Subscription := none } } }

/-- An item whose period end, in milliseconds, does not fit `int64`. -/
def itemFar : stripe.SubscriptionItem :=
  { CurrentPeriodEnd := 9223372036854776,
    Price := some { Product := some { ID := "prod_1" } } }

/-- The subscription `sub_1` with the single item `itemFar`. -/
def subscriptionFar : stripe.Subscription :=
  { subscription1 with Items := some { Data := [itemFar] } }

/-- A run like `env1` against a provider that returns `subscriptionFar` for `sub_1`. -/
def envFar : Env :=
  { now := nowMidSecond,
    api := { customerGet := api1.customerGet, invoiceGet := api1.invoiceGet,
             subscriptionGet := fun id => if id = "sub_1" then some subscriptionFar else none },
    faults := mongo.Faults.none }

/-- An item without price. -/
def itemNoPrice : stripe.SubscriptionItem := { CurrentPeriodEnd := 1700000000, Price := none }

/-- The subscription `sub_1` with the single item `itemNoPrice`. -/
def subscriptionNoPrice : stripe.Subscription :=
  { subscription1 with Items := some { Data := [itemNoPrice] } }

/-- A run like `env1` against a provider that returns `subscriptionNoPrice` for `sub_1`. -/
def envNoPrice : Env :=
  { now := nowMidSecond,
    api := { customerGet := api1.customerGet, invoiceGet := api1.invoiceGet,
             subscriptionGet := fun id =>
               if id = "sub_1" then some subscriptionNoPrice else none },
    faults := mongo.Faults.none }

/-- The subscription `sub_1` with an empty item list. -/
def subscriptionNoItems : stripe.Subscription :=
  { subscription1 with Items := some { Data := [] } }

/-- A run like `env1` against a provider that returns `subscriptionNoItems` for `sub_1`. -/
def envNoItems : Env :=
  { now := nowMidSecond,
    api := { customerGet := api1.customerGet, invoiceGet := api1.invoiceGet,
             subscriptionGet := fun id =>
               if id = "sub_1" then some subscriptionNoItems else none },
    faults := mongo.Faults.none }

/-- A redelivery one minute later on a storage layer that fails every replacement and lets
every other call through. -/
def envReplaceFails : Env :=
  { env1Later with faults := { mongo.Faults.none with replaceOne := some .other } }

/-- A redelivery one minute later on a storage layer that fails every look-up and lets
every write through. -/
def envLookupFailsLater : Env :=
  { env1Later with faults := { mongo.Faults.none with findOne := some .other } }

/-- A collection holding the record of `sub_2` only. -/
def onlyOther : World := { docs := [recordOther], calls := [] }

/-- The event `customer.subscription.updated` for `sub_1` whose single item has no price. -/
def updatedEventNoPrice : stripe.Event :=
  { Type_ := "customer.subscription.updated",
    Data := { asSubscription := some subscriptionNoPrice, asCheckoutSession := none } }

/-- The empty collection with an empty trace. -/
def emptyWorld : World := { docs := [], calls := [] }

end Examples

/-! ## Vocabulary of the statements -/

/-- The records of the collection that carry the subscription ID `id`, in order. -/
def World.recordsOf (w : World) (id : String) : List models.Subscription :=
  w.docs.filter (fun d => d.SubscriptionID == id)

/-- The supporting data of a checkout completion is all there: the session names a
customer, an invoice and a subscription, the provider answers the three look-ups with
`customerData`, `invoiceData` and `subscriptionData`, and the subscription has a first item
`item` whose price names the product `productId`. -/
structure CheckoutFetched (env : Env) (cs : stripe.CheckoutSession)
    (customerData : stripe.Customer) (invoiceData : stripe.Invoice)
    (subscriptionData : stripe.Subscription) (item : stripe.SubscriptionItem)
    (productId : String) : Prop where
  hCustomer : ∃ ref, cs.Customer = some ref ∧ env.api.customerGet ref.ID = some customerData
  hInvoice : ∃ ref, cs.Invoice = some ref ∧ env.api.invoiceGet ref.ID = some invoiceData
  hSubscription :
    ∃ ref, cs.Subscription = some ref ∧ env.api.subscriptionGet ref.ID = some subscriptionData
  hItem : services.firstItem subscriptionData = some item
  hProduct : services.productID item = some productId

/-- The record that `handleSubscriptionUpdate` hands to `Update`: the stored record
`subscriptionData` after the assignments of the handler; `now` is the value of
`time.Now()`. -/
def services.updatedRecord (now : time.Time) (subscriptionData : models.Subscription)
    (subscription : stripe.Subscription) (invoiceData : stripe.Invoice)
    (item : stripe.SubscriptionItem) (productId : String) : models.Subscription :=
  { subscriptionData with
    Plan := { ProductId := productId, Price := services.planPrice invoiceData.Total,
              SessionId := subscriptionData.Plan.SessionId }
    InvoicePDF := invoiceData.InvoicePDF
    InvoiceLink := invoiceData.HostedInvoiceURL
    InvoiceNumber := invoiceData.Number
    Status := subscription.Status
    EndsAt := services.expireDateTimestamp item.CurrentPeriodEnd
    RenewsAt := services.expireDateTimestamp item.CurrentPeriodEnd
    UpdatedAt := time.UnixMilli now
    IsCanceled := subscription.CancelAtPeriodEnd }

/-- The collection holds at most one record per subscription ID. -/
def World.Unique (w : World) : Prop := (w.docs.map (·.SubscriptionID)).Nodup

instance World.decidableUnique (w : World) : Decidable w.Unique :=
  inferInstanceAs
    (Decidable (w.docs.map (fun d : models.Subscription => d.SubscriptionID)).Nodup)

/-! # Theorems -/

/-! ## Entitlement check -/

/-- A clock reading in nanoseconds lies before a whole second exactly when its
millisecond reading lies before that second expressed in milliseconds. -/
theorem Before_Unix_iff (now sec : Int) :
    time.Before now (time.Unix sec 0) = true ↔ time.UnixMilli now < sec * 1000 := by
  unfold time.Before time.Unix time.UnixMilli
  simp only [decide_eq_true_eq]
  show (now < sec * 1000000000 + 0) ↔ (now / 1000000 < sec * 1000)
  omega

/-- C1 (as amended): `IsValid` answers true exactly when the storage answers the look-up by
user ID with a record (the first one of that user, and no storage error) and either the
record is one-time with status active, paid or complete and `EndsAt = -1`, or its status
is active or trialing and the clock, in milliseconds, lies before `EndsAt` cut down to a
whole second (`EndsAt / 1000 * 1000`, division truncating toward zero). In every other
case, in particular when no record exists for the user, it answers false. -/
theorem IsValid_iff (fl : mongo.Faults) (now : time.Time) (w : World) (userId : String) :
    (repository.IsValid fl now w userId).1 = true ↔
      ∃ subs, fl.findOne = none ∧ w.docs.find? (fun d => d.UserId == userId) = some subs ∧
        ((subs.IsOneTime = true ∧
            (subs.Status = "active" ∨ subs.Status = "paid" ∨ subs.Status = "complete") ∧
            subs.EndsAt = -1) ∨
          ((subs.Status = "active" ∨ subs.Status = "trialing") ∧
            time.UnixMilli now < Int.tdiv subs.EndsAt 1000 * 1000)) := by
  unfold repository.IsValid repository.GetByUserId mongo.FindOne
  cases hf : fl.findOne with
  | some e => cases e <;> simp
  | none =>
    have hm : (mongo.Filter.userId userId).matches = fun d => d.UserId == userId := rfl
    simp only [hm]
    cases hd : w.docs.find? (fun d => d.UserId == userId) with
    | none => simp
    | some subs =>
      simp only [Option.some.injEq, true_and, exists_eq_left']
      by_cases h1 : (subs.IsOneTime && (subs.Status == "active" || subs.Status == "paid"
          || subs.Status == "complete") && subs.EndsAt == -1) = true
      · rw [if_pos h1]
        simp only [Bool.and_eq_true, Bool.or_eq_true, beq_iff_eq] at h1
        simp only [true_iff]
        exact Or.inl ⟨h1.1.1, by tauto, h1.2⟩
      · rw [if_neg h1]
        simp only [Bool.and_eq_true, Bool.or_eq_true, beq_iff_eq] at h1
        simp only [Bool.and_eq_true, Bool.or_eq_true, beq_iff_eq, Before_Unix_iff]
        constructor
        · intro h; exact Or.inr h
        · rintro (h | h)
          · exact absurd ⟨⟨h.1, by tauto⟩, h.2.2⟩ h1
          · exact h

/-- C1 (counterexample): a record of the user is found, its status is active and the clock
(1700000000500 ms) lies before its `EndsAt` (1700000000999 ms), yet `IsValid` answers
false, because `EndsAt` is compared after being cut down to 1700000000 s. -/
theorem IsValid_not_millisecond :
    (repository.IsValid mongo.Faults.none Examples.nowMidSecond
        ⟨[Examples.recordMidSecond], []⟩ "user-42").1 = false ∧
      ([Examples.recordMidSecond].find? (fun d => d.UserId == "user-42")
          = some Examples.recordMidSecond) ∧
      Examples.recordMidSecond.Status = "active" ∧
      time.UnixMilli Examples.nowMidSecond < Examples.recordMidSecond.EndsAt := by
  decide

/-! ## Checkout completion -/

/-- Under `CheckoutFetched` and a non-empty client reference, the handler makes its three
provider calls and reaches its save-or-update step with the record `checkoutRecord`. -/
theorem handleSubscriptionPaymentCompletion_fetched (env : Env) (w : World)
    (cs : stripe.CheckoutSession) (customerData : stripe.Customer)
    (invoiceData : stripe.Invoice) (subscriptionData : stripe.Subscription)
    (item : stripe.SubscriptionItem) (productId : String)
    (hf : CheckoutFetched env cs customerData invoiceData subscriptionData item productId)
    (hu : cs.ClientReferenceID ≠ "") :
    ∃ a b c : String,
      services.handleSubscriptionPaymentCompletion env w cs =
        (match repository.Save env.faults
            { docs := w.docs,
              calls := w.calls ++ [.customerGet a, .invoiceGet b, .subscriptionGet c] }
            (services.checkoutRecord env.now cs customerData invoiceData subscriptionData
              item productId) with
          | (none, w4) => (.ok, w4)
          | (some _, w4) =>
            match repository.Update env.faults w4
                (services.checkoutRecord env.now cs customerData invoiceData subscriptionData
                  item productId) with
            | (some err, w5) => (.err err, w5)
            | (none, w5) => (.ok, w5)) := by
  obtain ⟨cref, hc1, hc2⟩ := hf.hCustomer
  obtain ⟨iref, hi1, hi2⟩ := hf.hInvoice
  obtain ⟨sref, hs1, hs2⟩ := hf.hSubscription
  refine ⟨cref.ID, iref.ID, sref.ID, ?_⟩
  simp only [services.handleSubscriptionPaymentCompletion, hc1, services.GetCustomer, hc2,
    hu, if_false, hi1, services.GetInvoice, hi2, hs1, services.GetSubscription, hs2, hf.hItem,
    hf.hProduct, World.log, List.append_assoc, List.singleton_append, List.cons_append,
    List.nil_append]

/-- A subscription-mode `checkout.session.completed` event is handled by
`handleSubscriptionPaymentCompletion`. -/
theorem HandleEvents_checkout (env : Env) (w : World) (e : stripe.Event)
    (cs : stripe.CheckoutSession) (hType : e.Type_ = "checkout.session.completed")
    (hData : e.Data.asCheckoutSession = some cs) (hMode : cs.Mode = "subscription") :
    services.HandleEvents env w e = services.handleSubscriptionPaymentCompletion env w cs := by
  simp [services.HandleEvents, hType, hData, hMode, stripe.CheckoutSessionModeSubscription]

/-- The filter by subscription ID, as a predicate. -/
theorem matches_subscriptionId (id : String) :
    (mongo.Filter.subscriptionId id).matches = fun d => d.SubscriptionID == id := rfl

/-- The first match of a predicate is the head of the filtered list. -/
theorem find?_eq_head?_filter {α : Type} (p : α → Bool) (l : List α) :
    l.find? p = (l.filter p).head? := by
  induction l with
  | nil => rfl
  | cons x xs ih =>
    cases h : p x with
    | true => simp only [List.find?_cons, List.filter_cons, h, if_true, List.head?_cons]
    | false =>
      simp only [List.find?_cons, List.filter_cons, h, Bool.false_eq_true, if_false]
      exact ih

/-- Within the `int64` range the computed expiry is the period end in milliseconds plus
twelve hours. -/
theorem expireDateTimestamp_exact (cpe : Int) (hlo : -9223372036854775808 ≤ cpe * 1000)
    (hhi : cpe * 1000 + 43200000 ≤ 9223372036854775807) :
    services.expireDateTimestamp cpe = cpe * 1000 + 43200000 := by
  unfold services.expireDateTimestamp services.TwelveHoursInMilliseconds wrap64
  norm_num
  omega

/-- A collection without a record for `id` answers the look-up by `id` with nothing. -/
theorem find?_subscriptionId_absent (docs : List models.Subscription) (id : String)
    (h : docs.filter (fun d => d.SubscriptionID == id) = []) :
    docs.find? (mongo.Filter.subscriptionId id).matches = none := by
  rw [List.find?_eq_none]
  intro d hd hm
  have : d ∈ docs.filter (fun d => d.SubscriptionID == id) := List.mem_filter.mpr ⟨hd, hm⟩
  rw [h] at this
  exact absurd this (List.not_mem_nil d)

/-- Saving a new record (no `_id` yet) under an ID that the collection does not hold, with
an insert that the storage lets through, appends the record under a fresh `_id`. -/
theorem Save_absent (fl : mongo.Faults) (w : World) (subs : models.Subscription)
    (hIns : fl.insertOne = none) (hID : subs.ID = 0)
    (hAbsent : w.recordsOf subs.SubscriptionID = []) :
    repository.Save fl w subs =
      (none, { docs := w.docs ++ [{ subs with ID := mongo.freshID w.docs }],
               calls := w.calls ++ [.FindOne (.subscriptionId subs.SubscriptionID),
                 .InsertOne subs] }) := by
  have hfind := find?_subscriptionId_absent w.docs subs.SubscriptionID hAbsent
  unfold repository.Save repository.Get mongo.FindOne mongo.InsertOne
  cases hfo : fl.findOne with
  | some e => cases e <;> simp [hIns, hID, World.log]
  | none => simp [hfind, hIns, hID, World.log]

/-- C2 (as amended): a subscription-mode `checkout.session.completed` event with a non-empty
client reference, whose customer, invoice and subscription fetches succeed and whose
subscription has a first item with a price that names a product, handled on a collection
without a record for the fetched subscription ID, the storage not failing the insert.
`HandleEvents` returns success and appends exactly one record, the only one for that ID: it
carries the fetched subscription ID, the client reference as user ID, `IsOneTime = false`,
`IsCanceled = false` and `EndsAt = RenewsAt =` the `int64` (wrap-around) value of
`CurrentPeriodEnd * 1000 + 43200000`, which is that number itself whenever
`CurrentPeriodEnd * 1000` and `CurrentPeriodEnd * 1000 + 43200000` fit `int64`. -/
theorem HandleEvents_checkout_creates_record (env : Env) (w : World) (e : stripe.Event)
    (cs : stripe.CheckoutSession) (customerData : stripe.Customer)
    (invoiceData : stripe.Invoice) (subscriptionData : stripe.Subscription)
    (item : stripe.SubscriptionItem) (productId : String)
    (hType : e.Type_ = "checkout.session.completed")
    (hData : e.Data.asCheckoutSession = some cs)
    (hMode : cs.Mode = "subscription")
    (hUser : cs.ClientReferenceID ≠ "")
    (hFetched : CheckoutFetched env cs customerData invoiceData subscriptionData item productId)
    (hAbsent : w.recordsOf subscriptionData.ID = [])
    (hInsert : env.faults.insertOne = none) :
    (services.HandleEvents env w e).1 = Outcome.ok ∧
      ∃ r : models.Subscription,
        (services.HandleEvents env w e).2.docs = w.docs ++ [r] ∧
        (services.HandleEvents env w e).2.recordsOf subscriptionData.ID = [r] ∧
        r.SubscriptionID = subscriptionData.ID ∧
        r.UserId = cs.ClientReferenceID ∧
        r.IsOneTime = false ∧
        r.IsCanceled = false ∧
        r.EndsAt = services.expireDateTimestamp item.CurrentPeriodEnd ∧
        r.RenewsAt = services.expireDateTimestamp item.CurrentPeriodEnd ∧
        (-9223372036854775808 ≤ item.CurrentPeriodEnd * 1000 →
          item.CurrentPeriodEnd * 1000 + 43200000 ≤ 9223372036854775807 →
          r.EndsAt = item.CurrentPeriodEnd * 1000 + 43200000 ∧
          r.RenewsAt = item.CurrentPeriodEnd * 1000 + 43200000) := by
  obtain ⟨a, b, c, hrun⟩ := handleSubscriptionPaymentCompletion_fetched env w cs customerData
    invoiceData subscriptionData item productId hFetched hUser
  have hsave := Save_absent env.faults
    { docs := w.docs, calls := w.calls ++ [.customerGet a, .invoiceGet b, .subscriptionGet c] }
    (services.checkoutRecord env.now cs customerData invoiceData subscriptionData item
      productId) hInsert rfl hAbsent
  rw [HandleEvents_checkout env w e cs hType hData hMode, hrun, hsave]
  refine ⟨rfl, { services.checkoutRecord env.now cs customerData invoiceData subscriptionData
    item productId with ID := mongo.freshID w.docs }, rfl, ?_, rfl, rfl, rfl, rfl, rfl, rfl, ?_⟩
  · simp only [World.recordsOf] at hAbsent ⊢
    simp [List.filter_append, hAbsent, services.checkoutRecord]
  · intro hlo hhi
    exact ⟨expireDateTimestamp_exact _ hlo hhi, expireDateTimestamp_exact _ hlo hhi⟩

/-- C2 (witness): the scenario of the specification. Client reference `user-42`,
subscription `sub_1` and period end 1700000000 on the empty collection give success and
one record with `EndsAt = 1700000000000 + 43200000`. -/
theorem HandleEvents_checkout_creates_record_witness :
    (services.HandleEvents Examples.env1 Examples.emptyWorld Examples.checkoutEvent).1
        = Outcome.ok ∧
      ∃ r : models.Subscription,
        (services.HandleEvents Examples.env1 Examples.emptyWorld Examples.checkoutEvent).2.docs
          = [r] ∧
        r.SubscriptionID = "sub_1" ∧ r.UserId = "user-42" ∧ r.IsOneTime = false ∧
        r.IsCanceled = false ∧ r.EndsAt = 1700000000000 + 43200000 ∧
        r.RenewsAt = 1700000000000 + 43200000 := by
  obtain ⟨hok, r, hdocs, _, hid, huser, hone, hcan, _, _, hexact⟩ :=
    HandleEvents_checkout_creates_record Examples.env1 Examples.emptyWorld
      Examples.checkoutEvent Examples.session1 Examples.customer1 Examples.invoice1
      Examples.subscription1 Examples.item1 "prod_1" rfl rfl rfl (by decide)
      ⟨⟨_, rfl, rfl⟩, ⟨_, rfl, rfl⟩, ⟨_, rfl, rfl⟩, rfl, rfl⟩ rfl rfl
  have h := hexact (by decide) (by decide)
  exact ⟨hok, r, hdocs, hid, huser, hone, hcan, h.1, h.2⟩

/-- Saving under an ID that the collection holds is refused after the look-up. -/
theorem Save_present (fl : mongo.Faults) (w : World) (subs old : models.Subscription)
    (hfo : fl.findOne = none)
    (hfind : w.docs.find? (mongo.Filter.subscriptionId subs.SubscriptionID).matches = some old) :
    repository.Save fl w subs =
      (some .repository_ErrSubscriptionAlreadyExists,
        { docs := w.docs,
          calls := w.calls ++ [.FindOne (.subscriptionId subs.SubscriptionID)] }) := by
  simp [repository.Save, repository.Get, mongo.FindOne, hfo, hfind, World.log]

/-- Updating with a record without `_id` under an ID that the collection holds replaces the
first record of that ID and keeps its `_id`. -/
theorem Update_present (fl : mongo.Faults) (w : World) (subs old : models.Subscription)
    (hro : fl.replaceOne = none) (hID : subs.ID = 0)
    (hfind : w.docs.find? (mongo.Filter.subscriptionId subs.SubscriptionID).matches = some old) :
    repository.Update fl w subs =
      (none,
        { docs := mongo.replaceFirst (mongo.Filter.subscriptionId subs.SubscriptionID).matches
            (fun o => { subs with ID := o.ID }) w.docs,
          calls := w.calls ++ [.ReplaceOne (.subscriptionId subs.SubscriptionID) subs] }) := by
  simp [repository.Update, mongo.ReplaceOne, hro, hfind, hID, World.log]

/-- The look-up by an ID that the collection does not hold fails, whatever the storage
layer does, and only adds the look-up to the trace. -/
theorem Get_absent (fl : mongo.Faults) (w : World) (id : String)
    (hAbsent : w.recordsOf id = []) :
    ∃ err, repository.Get fl w id =
      (Except.error err, { docs := w.docs, calls := w.calls ++ [.FindOne (.subscriptionId id)] }) := by
  have hfind := find?_subscriptionId_absent w.docs id hAbsent
  unfold repository.Get mongo.FindOne
  cases hfo : fl.findOne with
  | some e => cases e <;> simp [World.log]
  | none => simp [hfind, World.log]

/-- C4 (as amended): a `customer.subscription.updated` event whose subscription ID has no
record in the collection leaves the collection unchanged and makes no insert, replacement
or deletion; when moreover the ID is not empty, the subscription has a first item and names
a latest invoice, and the fetch of that invoice succeeds, `HandleEvents` returns
`ErrSubscriptionNotFound`. -/
theorem HandleEvents_updated_absent (env : Env) (w : World) (e : stripe.Event)
    (sub : stripe.Subscription) (hType : e.Type_ = "customer.subscription.updated")
    (hData : e.Data.asSubscription = some sub) (hAbsent : w.recordsOf sub.ID = []) :
    (services.HandleEvents env w e).2.docs = w.docs ∧
      (∃ extra : List Call, (services.HandleEvents env w e).2.calls = w.calls ++ extra ∧
        ∀ c ∈ extra, c.isWrite = false) ∧
      (∀ (item : stripe.SubscriptionItem) (ref invoiceData : stripe.Invoice),
        sub.ID ≠ "" → services.firstItem sub = some item → sub.LatestInvoice = some ref →
        env.api.invoiceGet ref.ID = some invoiceData →
        (services.HandleEvents env w e).1 = Outcome.err GoError.ErrSubscriptionNotFound) := by
  have hH : services.HandleEvents env w e =
      if sub.ID ≠ "" then services.handleSubscriptionUpdate env w sub else (Outcome.ok, w) := by
    simp [services.HandleEvents, hType, hData]
  rw [hH]
  by_cases hid : sub.ID = ""
  · rw [if_neg (not_not.mpr hid)]
    exact ⟨rfl, ⟨[], by simp, by simp⟩, fun _ _ _ h => absurd hid h⟩
  · rw [if_pos hid]
    cases hitem : services.firstItem sub with
    | none =>
      have hrun : services.handleSubscriptionUpdate env w sub = (Outcome.panic, w) := by
        simp [services.handleSubscriptionUpdate, hitem]
      rw [hrun]
      exact ⟨rfl, ⟨[], by simp, by simp⟩, fun _ _ _ _ h => by simp at h⟩
    | some item =>
      cases hinv : sub.LatestInvoice with
      | none =>
        have hrun : services.handleSubscriptionUpdate env w sub = (Outcome.panic, w) := by
          simp [services.handleSubscriptionUpdate, hitem, hinv]
        rw [hrun]
        exact ⟨rfl, ⟨[], by simp, by simp⟩, fun _ _ _ _ _ h => by simp at h⟩
      | some ref =>
        cases hget : env.api.invoiceGet ref.ID with
        | none =>
          have hrun : services.handleSubscriptionUpdate env w sub =
              (Outcome.err GoError.ErrGettingInvoice,
                { docs := w.docs, calls := w.calls ++ [.invoiceGet ref.ID] }) := by
            simp [services.handleSubscriptionUpdate, hitem, hinv, services.GetInvoice, hget,
              World.log]
          rw [hrun]
          refine ⟨rfl, ⟨[.invoiceGet ref.ID], rfl, by simp [Call.isWrite]⟩, ?_⟩
          intro _ ref1 inv1 _ _ h1 h2
          simp only [Option.some.injEq] at h1
          subst h1
          rw [hget] at h2
          simp at h2
        | some invoiceData =>
          obtain ⟨err, hg⟩ := Get_absent env.faults
            { docs := w.docs, calls := w.calls ++ [.invoiceGet ref.ID] } sub.ID hAbsent
          have hrun : services.handleSubscriptionUpdate env w sub =
              (Outcome.err GoError.ErrSubscriptionNotFound,
                { docs := w.docs,
                  calls := w.calls ++ [.invoiceGet ref.ID, .FindOne (.subscriptionId sub.ID)] })
              := by
            simp [services.handleSubscriptionUpdate, hitem, hinv, services.GetInvoice, hget,
              World.log, hg]
          rw [hrun]
          exact ⟨rfl, ⟨[.invoiceGet ref.ID, .FindOne (.subscriptionId sub.ID)], rfl,
            by simp [Call.isWrite]⟩, fun _ _ _ _ _ _ _ => rfl⟩

/-- C4 (witness): the update event for `sub_1`, whose invoice `inv_1` the provider returns,
on the empty collection: `ErrSubscriptionNotFound`, and the collection stays empty. -/
theorem HandleEvents_updated_absent_witness :
    (services.HandleEvents Examples.env1 Examples.emptyWorld Examples.updatedEvent).2.docs = [] ∧
      (services.HandleEvents Examples.env1 Examples.emptyWorld Examples.updatedEvent).1
        = Outcome.err GoError.ErrSubscriptionNotFound := by
  obtain ⟨hdocs, _, herr⟩ :=
    HandleEvents_updated_absent Examples.env1 Examples.emptyWorld Examples.updatedEvent
      Examples.subscription1 rfl rfl rfl
  exact ⟨hdocs, herr Examples.item1 _ Examples.invoice1 (by decide) rfl rfl rfl⟩

/-- C4 (counterexample): an update event for `sub_1`, which has no record in the (empty)
collection, whose latest invoice the provider fails to return: `HandleEvents` reports
`ErrGettingInvoice`, not the not-found failure, because the invoice is fetched before the
record is looked up. -/
theorem HandleEvents_updated_absent_invoice_error :
    Examples.updatedEventLostInvoice.Type_ = "customer.subscription.updated" ∧
      Examples.emptyWorld.recordsOf "sub_1" = [] ∧
      (services.HandleEvents Examples.env1 Examples.emptyWorld
        Examples.updatedEventLostInvoice).1 = Outcome.err GoError.ErrGettingInvoice ∧
      (services.HandleEvents Examples.env1 Examples.emptyWorld
        Examples.updatedEventLostInvoice).1 ≠ Outcome.err GoError.ErrSubscriptionNotFound := by
  decide

/-! ## Subscription deletion -/

/-- Erasing the first match from a list with at most one match leaves exactly the elements
that do not match. -/
theorem eraseP_eq_filter_not {α : Type} (p : α → Bool) (l : List α)
    (h : (l.filter p).length ≤ 1) : l.eraseP p = l.filter (fun x => !p x) := by
  induction l with
  | nil => rfl
  | cons x xs ih =>
    cases hx : p x with
    | true =>
      have hnil : xs.filter p = [] := by
        simp only [List.filter_cons, hx, if_true, List.length_cons] at h
        exact List.eq_nil_of_length_eq_zero (by omega)
      have hall : ∀ a ∈ xs, (fun x => !p x) a = true := by
        intro a ha
        have := (List.filter_eq_nil_iff.mp hnil) a ha
        simpa using this
      simp only [List.eraseP_cons, hx, cond_true, List.filter_cons, Bool.not_true,
        Bool.false_eq_true, if_false]
      exact (List.filter_eq_self.mpr hall).symm
    | false =>
      have h1 : (xs.filter p).length ≤ 1 := by
        simpa only [List.filter_cons, hx, Bool.false_eq_true, if_false] using h
      simp only [List.eraseP_cons, hx, cond_false, List.filter_cons, Bool.not_false, if_true,
        ih h1]

/-- A `customer.subscription.deleted` event whose payload carries a subscription ID is
handled by `handleSubscriptionCancellation`. -/
theorem HandleEvents_deleted (env : Env) (w : World) (e : stripe.Event)
    (sub : stripe.Subscription) (hType : e.Type_ = "customer.subscription.deleted")
    (hData : e.Data.asSubscription = some sub) (hID : sub.ID ≠ "") :
    services.HandleEvents env w e = services.handleSubscriptionCancellation env w sub := by
  simp [services.HandleEvents, hType, hData, hID]

/-- Cancellation of an ID that the collection does not hold reports
`ErrSubscriptionNotFound` and leaves the collection unchanged. -/
theorem handleSubscriptionCancellation_absent (env : Env) (w : World)
    (sub : stripe.Subscription) (hAbsent : w.recordsOf sub.ID = []) :
    services.handleSubscriptionCancellation env w sub =
      (Outcome.err GoError.ErrSubscriptionNotFound,
        { docs := w.docs, calls := w.calls ++ [.FindOne (.subscriptionId sub.ID)] }) := by
  obtain ⟨err, hg⟩ := Get_absent env.faults w sub.ID hAbsent
  simp [services.handleSubscriptionCancellation, hg]

/-- C5 (as amended): a `customer.subscription.deleted` event for a non-empty subscription
ID that has exactly one record in the collection, the look-up not being failed by the
storage. If the deletion is not failed either, `HandleEvents` returns success, the record
with that ID is gone and all other records are unchanged, and handling the same event again
(under any provider and storage behaviour) reports `ErrSubscriptionNotFound` and leaves the
collection unchanged. If `Delete` fails with the repository's not-found error, the handler
still returns success; if `Delete` fails with `ErrorDeletingSubscription`, the handler
returns that error. -/
theorem HandleEvents_deleted_present (env : Env) (w : World) (e : stripe.Event)
    (sub : stripe.Subscription) (r : models.Subscription)
    (hType : e.Type_ = "customer.subscription.deleted")
    (hData : e.Data.asSubscription = some sub) (hID : sub.ID ≠ "")
    (hOne : w.recordsOf sub.ID = [r]) (hFind : env.faults.findOne = none) :
    (env.faults.deleteOne = none →
        (services.HandleEvents env w e).1 = Outcome.ok ∧
        (services.HandleEvents env w e).2.docs
          = w.docs.filter (fun d => !(d.SubscriptionID == sub.ID)) ∧
        ∀ envB : Env,
          (services.HandleEvents envB (services.HandleEvents env w e).2 e).1
            = Outcome.err GoError.ErrSubscriptionNotFound ∧
          (services.HandleEvents envB (services.HandleEvents env w e).2 e).2.docs
            = (services.HandleEvents env w e).2.docs) ∧
      ((repository.Delete env.faults (w.log (.FindOne (.subscriptionId sub.ID))) sub.ID).1
          = some GoError.repository_ErrSubscriptionNotFound →
        (services.HandleEvents env w e).1 = Outcome.ok) ∧
      ((repository.Delete env.faults (w.log (.FindOne (.subscriptionId sub.ID))) sub.ID).1
          = some GoError.repository_ErrorDeletingSubscription →
        (services.HandleEvents env w e).1
          = Outcome.err GoError.repository_ErrorDeletingSubscription) := by
  have hfind : w.docs.find? (mongo.Filter.subscriptionId sub.ID).matches = some r := by
    rw [find?_eq_head?_filter, matches_subscriptionId]
    simp only [World.recordsOf] at hOne
    rw [hOne]; rfl
  have hget : repository.Get env.faults w sub.ID =
      (Except.ok r, w.log (.FindOne (.subscriptionId sub.ID))) := by
    simp [repository.Get, mongo.FindOne, hFind, hfind]
  rw [HandleEvents_deleted env w e sub hType hData hID]
  refine ⟨?_, ?_, ?_⟩
  · intro hDel
    have hrun : services.handleSubscriptionCancellation env w sub =
        (Outcome.ok,
          { docs := w.docs.filter (fun d => !(d.SubscriptionID == sub.ID)),
            calls := w.calls ++ [.FindOne (.subscriptionId sub.ID),
              .DeleteOne (.subscriptionId sub.ID)] }) := by
      have herase := eraseP_eq_filter_not (fun d : models.Subscription =>
        d.SubscriptionID == sub.ID) w.docs (by
          simp only [World.recordsOf] at hOne
          rw [hOne]; simp)
      simp [services.handleSubscriptionCancellation, hget, repository.Delete, mongo.DeleteOne,
        hDel, World.log, matches_subscriptionId, herase]
    rw [hrun]
    refine ⟨rfl, rfl, fun envB => ?_⟩
    have hAbsent : World.recordsOf
        { docs := w.docs.filter (fun d => !(d.SubscriptionID == sub.ID)),
          calls := w.calls ++ [.FindOne (.subscriptionId sub.ID),
            .DeleteOne (.subscriptionId sub.ID)] } sub.ID = [] := by
      simp only [World.recordsOf, List.filter_filter]
      rw [List.filter_eq_nil_iff]
      intro a _
      simp
    rw [HandleEvents_deleted envB _ e sub hType hData hID,
      handleSubscriptionCancellation_absent envB _ sub hAbsent]
    exact ⟨rfl, rfl⟩
  · intro hDel
    cases hd : repository.Delete env.faults (w.log (.FindOne (.subscriptionId sub.ID))) sub.ID
      with
    | mk err w2 =>
      rw [hd] at hDel
      simp only at hDel
      subst hDel
      simp [services.handleSubscriptionCancellation, hget, hd]
  · intro hDel
    cases hd : repository.Delete env.faults (w.log (.FindOne (.subscriptionId sub.ID))) sub.ID
      with
    | mk err w2 =>
      rw [hd] at hDel
      simp only at hDel
      subst hDel
      simp [services.handleSubscriptionCancellation, hget, hd]

/-- C5 (witness): deleting `sub_1` from the collection holding `sub_1` and `sub_2` returns
success and leaves the record of `sub_2`; a second delivery reports
`ErrSubscriptionNotFound`. On a storage layer whose deletion returns the no-documents
sentinel the handler returns success; on one whose deletion fails otherwise it returns
`ErrorDeletingSubscription`. -/
theorem HandleEvents_deleted_present_witness :
    ((services.HandleEvents Examples.env1 Examples.twoRecords Examples.deletedEvent).1
        = Outcome.ok ∧
      (services.HandleEvents Examples.env1 Examples.twoRecords Examples.deletedEvent).2.docs
        = [Examples.recordOther] ∧
      (services.HandleEvents Examples.env1Later
        (services.HandleEvents Examples.env1 Examples.twoRecords Examples.deletedEvent).2
        Examples.deletedEvent).1 = Outcome.err GoError.ErrSubscriptionNotFound) ∧
      (services.HandleEvents Examples.envDeleteNoDocuments Examples.twoRecords
        Examples.deletedEvent).1 = Outcome.ok ∧
      (services.HandleEvents Examples.envDeleteFails Examples.twoRecords
        Examples.deletedEvent).1 = Outcome.err GoError.repository_ErrorDeletingSubscription := by
  have h1 := (HandleEvents_deleted_present Examples.env1 Examples.twoRecords
    Examples.deletedEvent Examples.subscription1 Examples.recordMidSecond rfl rfl (by decide)
    (by decide) rfl).1 rfl
  have h2 := (HandleEvents_deleted_present Examples.envDeleteNoDocuments Examples.twoRecords
    Examples.deletedEvent Examples.subscription1 Examples.recordMidSecond rfl rfl (by decide)
    (by decide) rfl).2.1 rfl
  have h3 := (HandleEvents_deleted_present Examples.envDeleteFails Examples.twoRecords
    Examples.deletedEvent Examples.subscription1 Examples.recordMidSecond rfl rfl (by decide)
    (by decide) rfl).2.2 rfl
  exact ⟨⟨h1.1, h1.2.1.trans (by decide), (h1.2.2 Examples.env1Later).1⟩, h2, h3⟩

/-- C5 (counterexample): the collection holds a record whose subscription ID is the empty
string; the `customer.subscription.deleted` event for that ID is refused by the guard on
empty IDs with `ErrSubscriptionNotFound`, and the record stays. -/
theorem HandleEvents_deleted_empty_ID :
    Examples.worldNoID.recordsOf "" = [Examples.recordNoID] ∧
      Examples.deletedEventNoID.Data.asSubscription.map (·.ID) = some "" ∧
      services.HandleEvents Examples.env1 Examples.worldNoID Examples.deletedEventNoID
        = (Outcome.err GoError.ErrSubscriptionNotFound, Examples.worldNoID) := by
  decide

/-! ## Store operation Delete -/

/-- Deleting an ID that the collection does not hold, the storage failing no call, returns
`nil` and leaves the collection unchanged: the driver reports no error when nothing
matches. -/
theorem Delete_absent (fl : mongo.Faults) (w : World) (id : String)
    (hDel : fl.deleteOne = none) (hAbsent : w.recordsOf id = []) :
    repository.Delete fl w id =
      (none, { docs := w.docs, calls := w.calls ++ [.DeleteOne (.subscriptionId id)] }) := by
  have hno : ∀ a ∈ w.docs, ¬ (mongo.Filter.subscriptionId id).matches a = true := by
    rw [matches_subscriptionId]
    exact List.filter_eq_nil_iff.mp hAbsent
  simp [repository.Delete, mongo.DeleteOne, hDel, List.eraseP_of_forall_not hno]

/-- `Delete` returns `ErrorDeletingSubscription` exactly when the driver call fails with an
error other than the no-documents sentinel, and the not-found error exactly when the
driver call fails with that sentinel; in both cases the collection is unchanged. -/
theorem Delete_error_iff (fl : mongo.Faults) (w : World) (id : String) :
    ((repository.Delete fl w id).1 = some GoError.repository_ErrorDeletingSubscription ↔
        fl.deleteOne = some mongo.DriverError.other) ∧
      ((repository.Delete fl w id).1 = some GoError.repository_ErrSubscriptionNotFound ↔
        fl.deleteOne = some mongo.DriverError.ErrNoDocuments) ∧
      (fl.deleteOne ≠ none → (repository.Delete fl w id).2.docs = w.docs) := by
  unfold repository.Delete mongo.DeleteOne
  cases hd : fl.deleteOne with
  | none => simp
  | some e => cases e <;> simp [World.log]

/-- C6 (the code at the failing input): `Delete("sub_404")` on a collection that holds
records of `sub_1` and `sub_2` only, on a storage layer without failures, returns `nil`
(success), not `ErrSubscriptionNotFound`; the collection is unchanged. -/
theorem Delete_absent_returns_nil :
    Examples.twoRecords.recordsOf "sub_404" = [] ∧
      repository.Delete mongo.Faults.none Examples.twoRecords "sub_404" =
        (none, { docs := Examples.twoRecords.docs,
                 calls := [.DeleteOne (.subscriptionId "sub_404")] }) := by
  decide

/-! ## Checkout completion without client reference -/

/-- C7 (as amended): a subscription-mode `checkout.session.completed` event whose client
reference is empty writes nothing to the collection, whatever the provider and the storage
do; when the session names a customer and the fetch of that customer succeeds,
`HandleEvents` fails with `ErrCustomUserIdNotExist` after that one provider call, so that
the invoice and the subscription are never looked up. -/
theorem HandleEvents_checkout_no_user (env : Env) (w : World) (e : stripe.Event)
    (cs : stripe.CheckoutSession) (hType : e.Type_ = "checkout.session.completed")
    (hData : e.Data.asCheckoutSession = some cs) (hMode : cs.Mode = "subscription")
    (hUser : cs.ClientReferenceID = "") :
    (services.HandleEvents env w e).2.docs = w.docs ∧
      (∃ extra : List Call, (services.HandleEvents env w e).2.calls = w.calls ++ extra ∧
        ∀ c ∈ extra, c.isWrite = false) ∧
      (∀ ref customerData : stripe.Customer, cs.Customer = some ref →
        env.api.customerGet ref.ID = some customerData →
        services.HandleEvents env w e =
          (Outcome.err GoError.ErrCustomUserIdNotExist,
            { docs := w.docs, calls := w.calls ++ [.customerGet ref.ID] })) := by
  rw [HandleEvents_checkout env w e cs hType hData hMode]
  cases hc : cs.Customer with
  | none =>
    have hrun : services.handleSubscriptionPaymentCompletion env w cs = (Outcome.panic, w) := by
      simp [services.handleSubscriptionPaymentCompletion, hc]
    rw [hrun]
    exact ⟨rfl, ⟨[], by simp, by simp⟩, fun _ _ h => by simp at h⟩
  | some ref =>
    cases hg : env.api.customerGet ref.ID with
    | none =>
      have hrun : services.handleSubscriptionPaymentCompletion env w cs =
          (Outcome.err GoError.ErrGettingCustomer,
            { docs := w.docs, calls := w.calls ++ [.customerGet ref.ID] }) := by
        simp [services.handleSubscriptionPaymentCompletion, hc, services.GetCustomer, hg,
          World.log]
      rw [hrun]
      refine ⟨rfl, ⟨[.customerGet ref.ID], rfl, by simp [Call.isWrite]⟩, ?_⟩
      intro ref1 c1 h1 h2
      simp only [Option.some.injEq] at h1
      subst h1
      rw [hg] at h2
      simp at h2
    | some customerData =>
      have hrun : services.handleSubscriptionPaymentCompletion env w cs =
          (Outcome.err GoError.ErrCustomUserIdNotExist,
            { docs := w.docs, calls := w.calls ++ [.customerGet ref.ID] }) := by
        simp [services.handleSubscriptionPaymentCompletion, hc, services.GetCustomer, hg,
          World.log, hUser]
      rw [hrun]
      refine ⟨rfl, ⟨[.customerGet ref.ID], rfl, by simp [Call.isWrite]⟩, ?_⟩
      intro ref1 c1 h1 _
      simp only [Option.some.injEq] at h1
      subst h1
      rfl

/-- C7 (witness): the checkout event without client reference, whose customer `cus_1` the
provider returns, on the empty collection. -/
theorem HandleEvents_checkout_no_user_witness :
    services.HandleEvents Examples.env1 Examples.emptyWorld Examples.checkoutEventNoUser =
      (Outcome.err GoError.ErrCustomUserIdNotExist,
        { docs := [], calls := [.customerGet "cus_1"] }) :=
  (HandleEvents_checkout_no_user Examples.env1 Examples.emptyWorld
    Examples.checkoutEventNoUser Examples.sessionNoUser rfl rfl rfl rfl).2.2
    _ Examples.customer1 rfl rfl

/-- C7 (counterexample): a subscription-mode checkout event without client reference whose
customer the provider fails to return: `HandleEvents` fails with `ErrGettingCustomer`, not
with `ErrCustomUserIdNotExist`, because the customer is fetched before the client reference
is examined. -/
theorem HandleEvents_checkout_no_user_customer_error :
    Examples.checkoutEventNoUserLostCustomer.Data.asCheckoutSession.map
        (fun cs => (cs.Mode, cs.ClientReferenceID)) = some ("subscription", "") ∧
      (services.HandleEvents Examples.env1 Examples.emptyWorld
        Examples.checkoutEventNoUserLostCustomer).1 = Outcome.err GoError.ErrGettingCustomer ∧
      (services.HandleEvents Examples.env1 Examples.emptyWorld
        Examples.checkoutEventNoUserLostCustomer).1
          ≠ Outcome.err GoError.ErrCustomUserIdNotExist := by
  decide

/-! ## Unhandled event types -/

/-- C8: an event whose type is none of `customer.subscription.updated`,
`customer.subscription.deleted` and `checkout.session.completed` makes `HandleEvents`
return `ErrorHandlingStripeEvent` and leaves the world as it was: the collection is
unchanged and no call, to the provider or to the storage, is added to the trace, whatever
the payload, the provider and the storage layer are. -/
theorem HandleEvents_unhandled (env : Env) (w : World) (e : stripe.Event)
    (hUpdated : e.Type_ ≠ "customer.subscription.updated")
    (hDeleted : e.Type_ ≠ "customer.subscription.deleted")
    (hCheckout : e.Type_ ≠ "checkout.session.completed") :
    services.HandleEvents env w e = (Outcome.err GoError.ErrorHandlingStripeEvent, w) := by
  simp [services.HandleEvents, hUpdated, hDeleted, hCheckout]

/-- C8 (witness): an `invoice.paid` event, with a payload that would decode as a
subscription and as a session, on the collection holding two records. -/
theorem HandleEvents_unhandled_witness :
    services.HandleEvents Examples.env1 Examples.twoRecords Examples.invoicePaidEvent
      = (Outcome.err GoError.ErrorHandlingStripeEvent, Examples.twoRecords) :=
  HandleEvents_unhandled Examples.env1 Examples.twoRecords Examples.invoicePaidEvent
    (by decide) (by decide) (by decide)

/-! ## Webhook authentication -/

/-- Membership test of Go `slices.Contains`. -/
theorem contains_eq_true_iff (l : List String) (a : String) : l.contains a = true ↔ a ∈ l :=
  List.elem_iff

/-- Under the invariant of `AllowedStripeIPs`, the list that `AuthenticateWebhook` searches
holds an address exactly when the address passes `originAllowed`. -/
theorem contains_allowed_iff (isProd : Bool) (allowed : List String) (ip : String)
    (hInv : services.allowedInvariant isProd allowed = true) :
    (if !isProd then allowed ++ ["::1"] else allowed).contains ip
      = services.originAllowed isProd ip := by
  simp only [services.allowedInvariant, Bool.and_eq_true, List.all_eq_true, Bool.or_eq_true,
    beq_iff_eq, Bool.not_eq_true', contains_eq_true_iff] at hInv
  obtain ⟨h1, h2⟩ := hInv
  rw [Bool.eq_iff_iff]
  simp only [services.originAllowed, contains_eq_true_iff, Bool.or_eq_true, Bool.and_eq_true,
    beq_iff_eq, Bool.not_eq_true']
  cases isProd with
  | true =>
    simp only [Bool.not_true, Bool.false_eq_true, if_false, Bool.true_eq_false, and_false,
      or_false]
    constructor
    · intro h
      rcases h2 ip h with h | h
      · exact h
      · exact absurd h.2 (by simp)
    · exact h1 ip
  | false =>
    simp only [Bool.not_false, if_true, List.mem_append, List.mem_singleton, and_true]
    constructor
    · rintro (h | h)
      · rcases h2 ip h with h | h
        · exact Or.inl h
        · exact Or.inr h.1
      · exact Or.inr h
    · rintro (h | h)
      · exact Or.inl (h1 ip h)
      · exact Or.inr h

/-- C9: the ordered decision of `AuthenticateWebhook`, for every value that
`AllowedStripeIPs` can have. (1) A client address that is none of the twelve published
addresses nor, in non-production mode, `"::1"` gives `ErrWebhookNotFromStripe`, whatever
body and signature are. (2) Otherwise a body that cannot be read, which is the case on a
transport failure and when it is longer than 65536 bytes, gives `ErrReadingRequestBody`,
whatever the signature is. (3) Otherwise a rejection by `webhook.ConstructEvent` on the raw
body, the signature header and the webhook secret gives `ErrorVerifyingSignature`.
(4) Otherwise the verified event is returned. In production mode `"::1"` is rejected at
(1). The three errors are pairwise distinct, and so are their messages. -/
theorem AuthenticateWebhook_decision (s : services.StripeService)
    (constructEvent : services.ConstructEvent) (allowed : List String) (c : services.Request)
    (hInv : services.allowedInvariant s.isProd allowed = true) :
    (¬ (c.ClientIP ∈ services.AllowedStripeIPs ∨ (s.isProd = false ∧ c.ClientIP = "::1")) →
        (services.AuthenticateWebhook s constructEvent allowed c).1
          = Except.error GoError.ErrWebhookNotFromStripe) ∧
      ((c.ClientIP ∈ services.AllowedStripeIPs ∨ (s.isProd = false ∧ c.ClientIP = "::1")) →
        (c.readFails = true ∨ 65536 < c.Body.length) →
        (services.AuthenticateWebhook s constructEvent allowed c).1
          = Except.error GoError.ErrReadingRequestBody) ∧
      ((c.ClientIP ∈ services.AllowedStripeIPs ∨ (s.isProd = false ∧ c.ClientIP = "::1")) →
        ¬ (c.readFails = true ∨ 65536 < c.Body.length) →
        constructEvent c.Body c.StripeSignature s.stripeWebhookSecretKey = none →
        (services.AuthenticateWebhook s constructEvent allowed c).1
          = Except.error GoError.ErrorVerifyingSignature) ∧
      (∀ event : stripe.Event,
        (c.ClientIP ∈ services.AllowedStripeIPs ∨ (s.isProd = false ∧ c.ClientIP = "::1")) →
        ¬ (c.readFails = true ∨ 65536 < c.Body.length) →
        constructEvent c.Body c.StripeSignature s.stripeWebhookSecretKey = some event →
        (services.AuthenticateWebhook s constructEvent allowed c).1 = Except.ok event) ∧
      (s.isProd = true → c.ClientIP = "::1" →
        (services.AuthenticateWebhook s constructEvent allowed c).1
          = Except.error GoError.ErrWebhookNotFromStripe) ∧
      services.allowedInvariant s.isProd
        (services.AuthenticateWebhook s constructEvent allowed c).2 = true ∧
      services.AllowedStripeIPs.length = 12 ∧
      (GoError.ErrWebhookNotFromStripe ≠ GoError.ErrReadingRequestBody ∧
        GoError.ErrWebhookNotFromStripe ≠ GoError.ErrorVerifyingSignature ∧
        GoError.ErrReadingRequestBody ≠ GoError.ErrorVerifyingSignature) ∧
      (GoError.ErrWebhookNotFromStripe.Error ≠ GoError.ErrReadingRequestBody.Error ∧
        GoError.ErrWebhookNotFromStripe.Error ≠ GoError.ErrorVerifyingSignature.Error ∧
        GoError.ErrReadingRequestBody.Error ≠ GoError.ErrorVerifyingSignature.Error) := by
  have hcontains := contains_allowed_iff s.isProd allowed c.ClientIP hInv
  have horigin : services.originAllowed s.isProd c.ClientIP = true ↔
      (c.ClientIP ∈ services.AllowedStripeIPs ∨ (s.isProd = false ∧ c.ClientIP = "::1")) := by
    simp only [services.originAllowed, Bool.or_eq_true, contains_eq_true_iff,
      Bool.and_eq_true, beq_iff_eq, Bool.not_eq_true']
    tauto
  have hread : (c.readFails = true ∨ 65536 < c.Body.length) → services.readBody c = none := by
    intro h
    unfold services.readBody services.MaxBodyBytes
    rcases h with h | h
    · simp [h]
    · simp [h]
  have hread2 : ¬ (c.readFails = true ∨ 65536 < c.Body.length) →
      services.readBody c = some c.Body := by
    intro h
    unfold services.readBody services.MaxBodyBytes
    have h1 : c.readFails = false := by
      cases hf : c.readFails with
      | true => exact absurd (Or.inl hf) h
      | false => rfl
    have h2 : ¬ 65536 < c.Body.length := fun h3 => h (Or.inr h3)
    simp [h1, h2]
  have hform : (services.AuthenticateWebhook s constructEvent allowed c).1 =
      (if (!services.originAllowed s.isProd c.ClientIP) = true then
          Except.error GoError.ErrWebhookNotFromStripe
        else
          match services.readBody c with
          | none => Except.error GoError.ErrReadingRequestBody
          | some body =>
            match constructEvent body c.StripeSignature s.stripeWebhookSecretKey with
            | none => Except.error GoError.ErrorVerifyingSignature
            | some event => Except.ok event) := by
    unfold services.AuthenticateWebhook
    simp only []
    rw [hcontains]
    split
    · rfl
    · split
      · rfl
      · split <;> rfl
  have hrej : ¬ (c.ClientIP ∈ services.AllowedStripeIPs ∨
      (s.isProd = false ∧ c.ClientIP = "::1")) →
      (services.AuthenticateWebhook s constructEvent allowed c).1
        = Except.error GoError.ErrWebhookNotFromStripe := by
    intro h
    have h1 : services.originAllowed s.isProd c.ClientIP = false := by
      rw [← Bool.not_eq_true]; exact fun h2 => h (horigin.mp h2)
    rw [hform, h1]
    rfl
  refine ⟨hrej, ?_, ?_, ?_, ?_, ?_, by decide, by decide, by decide⟩
  · intro ho hr
    rw [hform, horigin.mpr ho, hread hr]
    rfl
  · intro ho hr hv
    rw [hform, horigin.mpr ho, hread2 hr]
    simp only [Bool.not_true, Bool.false_eq_true, if_false]
    rw [hv]
  · intro event ho hr hv
    rw [hform, horigin.mpr ho, hread2 hr]
    simp only [Bool.not_true, Bool.false_eq_true, if_false]
    rw [hv]
  · intro hp hip
    apply hrej
    rw [hp, hip]
    decide
  · have hnew : (services.AuthenticateWebhook s constructEvent allowed c).2
        = if !s.isProd then allowed ++ ["::1"] else allowed := by
      unfold services.AuthenticateWebhook
      simp only []
      repeat' split
      all_goals rfl
    rw [hnew]
    simp only [services.allowedInvariant, Bool.and_eq_true, List.all_eq_true, Bool.or_eq_true,
      beq_iff_eq, Bool.not_eq_true', contains_eq_true_iff] at hInv ⊢
    obtain ⟨h1, h2⟩ := hInv
    cases hp : s.isProd with
    | true =>
      rw [hp] at h2
      exact ⟨h1, h2⟩
    | false =>
      rw [hp] at h2
      simp only [Bool.not_false, if_true, List.mem_append, List.mem_singleton]
      refine ⟨fun ip hip => Or.inl (h1 ip hip), ?_⟩
      rintro ip (hip | hip)
      · rcases h2 ip hip with h | h
        · exact Or.inl h
        · exact Or.inr ⟨h.1, trivial⟩
      · exact Or.inr ⟨hip, trivial⟩

/-- C9 (witness): with `AllowedStripeIPs` at its initial value, a production service
rejects a well-signed request from `"::1"` as not coming from Stripe, whereas a development
service authenticates it and returns the event; a production service authenticates the
same request from a published address, fails to read a body of 65537 bytes, and reports a
bad signature as such. -/
theorem AuthenticateWebhook_decision_witness :
    (services.AuthenticateWebhook Examples.prodService Examples.verifier1
        services.AllowedStripeIPs Examples.requestLoopback).1
        = Except.error GoError.ErrWebhookNotFromStripe ∧
      (services.AuthenticateWebhook Examples.devService Examples.verifier1
        services.AllowedStripeIPs Examples.requestLoopback).1
        = Except.ok Examples.checkoutEvent ∧
      (services.AuthenticateWebhook Examples.prodService Examples.verifier1
        services.AllowedStripeIPs Examples.requestStripe).1
        = Except.ok Examples.checkoutEvent ∧
      (services.AuthenticateWebhook Examples.prodService Examples.verifier1
        services.AllowedStripeIPs Examples.requestTooLong).1
        = Except.error GoError.ErrReadingRequestBody ∧
      (services.AuthenticateWebhook Examples.prodService Examples.verifier1
        services.AllowedStripeIPs Examples.requestBadSignature).1
        = Except.error GoError.ErrorVerifyingSignature :=
  ⟨(AuthenticateWebhook_decision Examples.prodService Examples.verifier1
      services.AllowedStripeIPs Examples.requestLoopback (by decide)).2.2.2.2.1 rfl rfl,
    (AuthenticateWebhook_decision Examples.devService Examples.verifier1
      services.AllowedStripeIPs Examples.requestLoopback (by decide)).2.2.2.1
      Examples.checkoutEvent (by decide) (by decide) (by decide),
    (AuthenticateWebhook_decision Examples.prodService Examples.verifier1
      services.AllowedStripeIPs Examples.requestStripe (by decide)).2.2.2.1
      Examples.checkoutEvent (by decide) (by decide) (by decide),
    (AuthenticateWebhook_decision Examples.prodService Examples.verifier1
      services.AllowedStripeIPs Examples.requestTooLong (by decide)).2.1
      (by decide)
      (Or.inr (by
        show 65536 < (List.replicate 65537 (0 : UInt8)).length
        rw [List.length_replicate]
        exact Nat.lt_succ_self 65536)),
    (AuthenticateWebhook_decision Examples.prodService Examples.verifier1
      services.AllowedStripeIPs Examples.requestBadSignature (by decide)).2.2.1
      (by decide) (by decide) (by decide)⟩

/-! ## Webhook HTTP handler -/

/-- The responses of the webhook handler in terms of the authentication outcome: on success
one response (200, `success = true`) and the detached `HandleEvents` on the event; on
failure two responses, first 400 with the message of the error and then 200 with
`success = true`, and no `HandleEvents`. -/
theorem HandleStripeWebhooks_responses (s : services.StripeService)
    (constructEvent : services.ConstructEvent) (allowed : List String) (c : services.Request) :
    (∀ event, (services.AuthenticateWebhook s constructEvent allowed c).1 = Except.ok event →
        (controllers.HandleStripeWebhooks s constructEvent allowed c).responses =
            [{ success := true, status := 200, error := "",
               message := "Webhook received successfully" }] ∧
          (controllers.HandleStripeWebhooks s constructEvent allowed c).handled = some event) ∧
      (∀ err, (services.AuthenticateWebhook s constructEvent allowed c).1 = Except.error err →
        (controllers.HandleStripeWebhooks s constructEvent allowed c).responses =
            [{ success := false, status := 400, error := err.Error,
               message := "Webhook is not valid" },
             { success := true, status := 200, error := "",
               message := "Webhook received successfully" }] ∧
          (controllers.HandleStripeWebhooks s constructEvent allowed c).handled = none) := by
  unfold controllers.HandleStripeWebhooks
  cases h : services.AuthenticateWebhook s constructEvent allowed c with
  | mk res allowed1 =>
    cases res with
    | ok event => simp [utils.SendResponse]
    | error err => simp [utils.SendResponse]

/-- C10 (the code at the failing input): a production service receives a request from an
address that is not published. Authentication fails, and the handler sends two responses:
the 400 response with the error message and, after it, the 200 response with
`success = true`; `HandleEvents` is not started. -/
theorem HandleStripeWebhooks_sends_two_responses :
    (services.AuthenticateWebhook Examples.prodService Examples.verifier1
        services.AllowedStripeIPs Examples.requestStranger).1
        = Except.error GoError.ErrWebhookNotFromStripe ∧
      (controllers.HandleStripeWebhooks Examples.prodService Examples.verifier1
        services.AllowedStripeIPs Examples.requestStranger).responses =
          [{ success := false, status := 400, error := "webhook is not coming from stripe",
             message := "Webhook is not valid" },
           { success := true, status := 200, error := "",
             message := "Webhook received successfully" }] ∧
      (controllers.HandleStripeWebhooks Examples.prodService Examples.verifier1
        services.AllowedStripeIPs Examples.requestStranger).handled = none :=
  ⟨rfl, rfl, rfl⟩

/-! ## Subscription update of a stored record -/

/-- Replacing the first match in a list whose first match is `old`, found after the
non-matching elements `pre`, replaces `old` in place. -/
theorem replaceFirst_append {α : Type} (p : α → Bool) (f : α → α) (pre post : List α)
    (old : α) (hPre : ∀ d ∈ pre, p d = false) (hOld : p old = true) :
    mongo.replaceFirst p f (pre ++ old :: post) = pre ++ f old :: post := by
  induction pre with
  | nil => simp [mongo.replaceFirst, hOld]
  | cons x xs ih =>
    have hx : p x = false := hPre x (List.mem_cons_self x xs)
    have hxs : ∀ d ∈ xs, p d = false := fun d hd => hPre d (List.mem_cons_of_mem x hd)
    simp [mongo.replaceFirst, hx, ih hxs]

/-- The first match in a list whose first match is `old`, found after the non-matching
elements `pre`. -/
theorem find?_append {α : Type} (p : α → Bool) (pre post : List α) (old : α)
    (hPre : ∀ d ∈ pre, p d = false) (hOld : p old = true) :
    (pre ++ old :: post).find? p = some old := by
  induction pre with
  | nil => simp [List.find?_cons, hOld]
  | cons x xs ih =>
    have hx : p x = false := hPre x (List.mem_cons_self x xs)
    have hxs : ∀ d ∈ xs, p d = false := fun d hd => hPre d (List.mem_cons_of_mem x hd)
    simp [List.find?_cons, hx, ih hxs]

/-- Updating with a record that carries no `_id` or the `_id` of the first record `old`
of its subscription ID replaces `old` in place, keeps its `_id` and leaves every other
record as it was. -/
theorem Update_replaces (fl : mongo.Faults) (w : World) (subs old : models.Subscription)
    (pre post : List models.Subscription) (hro : fl.replaceOne = none)
    (hDocs : w.docs = pre ++ old :: post)
    (hPre : ∀ d ∈ pre, d.SubscriptionID ≠ subs.SubscriptionID)
    (hOld : old.SubscriptionID = subs.SubscriptionID)
    (hID : subs.ID = 0 ∨ subs.ID = old.ID) :
    repository.Update fl w subs =
      (none,
        { docs := pre ++ { subs with ID := old.ID } :: post,
          calls := w.calls ++ [.ReplaceOne (.subscriptionId subs.SubscriptionID) subs] }) := by
  have hp : ∀ d ∈ pre, (mongo.Filter.subscriptionId subs.SubscriptionID).matches d = false := by
    intro d hd
    simp [mongo.Filter.matches, hPre d hd]
  have ho : (mongo.Filter.subscriptionId subs.SubscriptionID).matches old = true := by
    simp [mongo.Filter.matches, hOld]
  have hfind : w.docs.find? (mongo.Filter.subscriptionId subs.SubscriptionID).matches
      = some old := by
    rw [hDocs]
    exact find?_append _ pre post old hp ho
  have hc : ¬ (subs.ID ≠ 0 ∧ subs.ID ≠ old.ID) := by
    rcases hID with h | h
    · exact fun hh => hh.1 h
    · exact fun hh => hh.2 h
  unfold repository.Update mongo.ReplaceOne
  rw [hro]
  simp only []
  rw [hfind]
  simp only []
  rw [if_neg hc, hDocs, replaceFirst_append _ _ pre post old hp ho]

/-- C11 (as amended): a `customer.subscription.updated` event with a non-empty subscription
ID whose first record in the collection is `old` (after the records `pre` of other IDs),
whose subscription has a first item with a price that names a product and whose
latest-invoice fetch succeeds, the storage failing neither the look-up nor the
replacement. `HandleEvents` returns success and the collection is the same list with `old`
replaced in place by `updatedRecord`: plan product and price, invoice link, PDF and number,
status, `EndsAt = RenewsAt` (the `int64` wrap-around value of
`CurrentPeriodEnd * 1000 + 43200000`, which is that number whenever
`CurrentPeriodEnd * 1000` and `CurrentPeriodEnd * 1000 + 43200000` fit `int64`),
`UpdatedAt` (the clock) and `IsCanceled` are overwritten; `_id`, `SubscriptionID`, `UserId`,
the user snapshot, the plan's session ID, `CreatedAt`, `IsTest` and `IsOneTime` are those of
`old`; all other records are unchanged. -/
theorem HandleEvents_updated_present (env : Env) (w : World) (e : stripe.Event)
    (sub : stripe.Subscription) (item : stripe.SubscriptionItem) (productId : String)
    (ref invoiceData : stripe.Invoice) (pre post : List models.Subscription)
    (old : models.Subscription)
    (hType : e.Type_ = "customer.subscription.updated")
    (hData : e.Data.asSubscription = some sub) (hID : sub.ID ≠ "")
    (hItem : services.firstItem sub = some item)
    (hProduct : services.productID item = some productId)
    (hRef : sub.LatestInvoice = some ref)
    (hInvoice : env.api.invoiceGet ref.ID = some invoiceData)
    (hDocs : w.docs = pre ++ old :: post)
    (hPre : ∀ d ∈ pre, d.SubscriptionID ≠ sub.ID) (hOld : old.SubscriptionID = sub.ID)
    (hFind : env.faults.findOne = none) (hReplace : env.faults.replaceOne = none) :
    (services.HandleEvents env w e).1 = Outcome.ok ∧
      (services.HandleEvents env w e).2.docs =
        pre ++ services.updatedRecord env.now old sub invoiceData item productId :: post ∧
      ((services.updatedRecord env.now old sub invoiceData item productId).Plan.ProductId
          = productId ∧
        (services.updatedRecord env.now old sub invoiceData item productId).Plan.Price
          = services.planPrice invoiceData.Total ∧
        (services.updatedRecord env.now old sub invoiceData item productId).InvoiceLink
          = invoiceData.HostedInvoiceURL ∧
        (services.updatedRecord env.now old sub invoiceData item productId).InvoicePDF
          = invoiceData.InvoicePDF ∧
        (services.updatedRecord env.now old sub invoiceData item productId).InvoiceNumber
          = invoiceData.Number ∧
        (services.updatedRecord env.now old sub invoiceData item productId).Status
          = sub.Status ∧
        (services.updatedRecord env.now old sub invoiceData item productId).EndsAt
          = services.expireDateTimestamp item.CurrentPeriodEnd ∧
        (services.updatedRecord env.now old sub invoiceData item productId).RenewsAt
          = services.expireDateTimestamp item.CurrentPeriodEnd ∧
        (-9223372036854775808 ≤ item.CurrentPeriodEnd * 1000 →
          item.CurrentPeriodEnd * 1000 + 43200000 ≤ 9223372036854775807 →
          services.expireDateTimestamp item.CurrentPeriodEnd
            = item.CurrentPeriodEnd * 1000 + 43200000) ∧
        (services.updatedRecord env.now old sub invoiceData item productId).UpdatedAt
          = time.UnixMilli env.now ∧
        (services.updatedRecord env.now old sub invoiceData item productId).IsCanceled
          = sub.CancelAtPeriodEnd) ∧
      ((services.updatedRecord env.now old sub invoiceData item productId).ID = old.ID ∧
        (services.updatedRecord env.now old sub invoiceData item productId).SubscriptionID
          = old.SubscriptionID ∧
        (services.updatedRecord env.now old sub invoiceData item productId).UserId
          = old.UserId ∧
        (services.updatedRecord env.now old sub invoiceData item productId).User = old.User ∧
        (services.updatedRecord env.now old sub invoiceData item productId).Plan.SessionId
          = old.Plan.SessionId ∧
        (services.updatedRecord env.now old sub invoiceData item productId).CreatedAt
          = old.CreatedAt ∧
        (services.updatedRecord env.now old sub invoiceData item productId).IsTest
          = old.IsTest ∧
        (services.updatedRecord env.now old sub invoiceData item productId).IsOneTime
          = old.IsOneTime) := by
  have hp : ∀ d ∈ pre, (mongo.Filter.subscriptionId sub.ID).matches d = false := by
    intro d hd
    simp [mongo.Filter.matches, hPre d hd]
  have ho : (mongo.Filter.subscriptionId sub.ID).matches old = true := by
    simp [mongo.Filter.matches, hOld]
  have hfind : w.docs.find? (mongo.Filter.subscriptionId sub.ID).matches = some old := by
    rw [hDocs]
    exact find?_append _ pre post old hp ho
  have hH : services.HandleEvents env w e = services.handleSubscriptionUpdate env w sub := by
    simp [services.HandleEvents, hType, hData, hID]
  have hupd := Update_replaces env.faults
    { docs := w.docs,
      calls := w.calls ++ [.invoiceGet ref.ID] ++ [.FindOne (.subscriptionId sub.ID)] }
    (services.updatedRecord env.now old sub invoiceData item productId) old pre post hReplace
    hDocs (fun d hd => by rw [show (services.updatedRecord env.now old sub invoiceData item
      productId).SubscriptionID = old.SubscriptionID from rfl, hOld]; exact hPre d hd)
    rfl (Or.inr rfl)
  have hrun : services.handleSubscriptionUpdate env w sub =
      (Outcome.ok,
        { docs := pre ++ services.updatedRecord env.now old sub invoiceData item productId
            :: post,
          calls := w.calls ++ [.invoiceGet ref.ID] ++ [.FindOne (.subscriptionId sub.ID)] ++
            [.ReplaceOne (.subscriptionId old.SubscriptionID)
              (services.updatedRecord env.now old sub invoiceData item productId)] }) := by
    simp only [services.handleSubscriptionUpdate, hItem, hRef, services.GetInvoice, hInvoice,
      repository.Get, mongo.FindOne, hFind, World.log, hfind, hProduct]
    exact (congrArg (fun r : Option GoError × World =>
      (match r with
        | (some err, w3) => (Outcome.err err, w3)
        | (none, w3) => (Outcome.ok, w3) : Outcome × World)) hupd)
  rw [hH, hrun]
  exact ⟨rfl, rfl, ⟨rfl, rfl, rfl, rfl, rfl, rfl, rfl, rfl,
    fun hlo hhi => expireDateTimestamp_exact _ hlo hhi, rfl, rfl⟩,
    ⟨rfl, rfl, rfl, rfl, rfl, rfl, rfl, rfl⟩⟩

/-- C11 (witness): the update event for `sub_1` on the collection holding the records of
`sub_1` and `sub_2`: success, the record of `sub_1` is replaced in place by its update, whose
`EndsAt` is `1700000000000 + 43200000`, and the record of `sub_2` is untouched. -/
theorem HandleEvents_updated_present_witness :
    (services.HandleEvents Examples.env1 Examples.twoRecords Examples.updatedEvent).1
        = Outcome.ok ∧
      (services.HandleEvents Examples.env1 Examples.twoRecords Examples.updatedEvent).2.docs =
        [services.updatedRecord Examples.env1.now Examples.recordMidSecond
          Examples.subscription1 Examples.invoice1 Examples.item1 "prod_1",
         Examples.recordOther] ∧
      (services.updatedRecord Examples.env1.now Examples.recordMidSecond
        Examples.subscription1 Examples.invoice1 Examples.item1 "prod_1").EndsAt
          = 1700000000000 + 43200000 := by
  obtain ⟨hok, hdocs, hnew, _⟩ :=
    HandleEvents_updated_present Examples.env1 Examples.twoRecords Examples.updatedEvent
      Examples.subscription1 Examples.item1 "prod_1"
      { ID := "inv_1", HostedInvoiceURL := "", InvoicePDF := "", Number := "",
        Livemode := true, Total := 0 }
      Examples.invoice1 [] [Examples.recordOther] Examples.recordMidSecond
      rfl rfl (by decide) rfl rfl rfl rfl rfl (by simp) rfl rfl rfl
  exact ⟨hok, hdocs, hnew.2.2.2.2.2.2.1.trans
    (hnew.2.2.2.2.2.2.2.2.1 (by decide) (by decide))⟩

/-- C11 (counterexample): the collection holds a record under the empty subscription ID and
an update event arrives for that ID, with an item and a latest invoice that the provider
returns. `HandleEvents` returns success without touching the collection: the record keeps
its `EndsAt` of 1700000000999 instead of the 1700043200000 of the update. -/
theorem HandleEvents_updated_empty_ID :
    Examples.worldNoID.recordsOf "" = [Examples.recordNoID] ∧
      Examples.updatedEventNoID.Data.asSubscription.map (·.ID) = some "" ∧
      services.HandleEvents Examples.env1 Examples.worldNoID Examples.updatedEventNoID
        = (Outcome.ok, Examples.worldNoID) ∧
      Examples.recordNoID.EndsAt = 1700000000999 ∧
      (services.updatedRecord Examples.env1.now Examples.recordNoID
        { Examples.subscription1 with ID := "" } Examples.invoice1 Examples.item1
        "prod_1").EndsAt = 1700043200000 := by
  decide

/-! ## Uniqueness of the subscription ID -/

/-- Uniqueness is a property of the documents alone. -/
theorem Unique_of_docs_eq (w w1 : World) (h : w1.docs = w.docs) (hU : w.Unique) :
    w1.Unique := by
  unfold World.Unique at hU ⊢
  rw [h]
  exact hU

/-- Replacing the first match by an element with the same key leaves the keys as they
were. -/
theorem map_replaceFirst {α β : Type} (p : α → Bool) (f : α → α) (g : α → β)
    (h : ∀ x, p x = true → g (f x) = g x) (l : List α) :
    (mongo.replaceFirst p f l).map g = l.map g := by
  induction l with
  | nil => rfl
  | cons x xs ih =>
    cases hx : p x with
    | true => simp [mongo.replaceFirst, hx, h x hx]
    | false => simp [mongo.replaceFirst, hx, ih]

/-- The world after `Update` is the world after its driver call. -/
theorem Update_snd (fl : mongo.Faults) (w : World) (subs : models.Subscription) :
    (repository.Update fl w subs).2 =
      (mongo.ReplaceOne w fl.replaceOne (.subscriptionId subs.SubscriptionID) subs).2 := by
  unfold repository.Update
  cases mongo.ReplaceOne w fl.replaceOne (.subscriptionId subs.SubscriptionID) subs with
  | mk e w1 => cases e <;> rfl

/-- `Update` keeps the subscription IDs of the collection, whatever the storage does. -/
theorem Update_keeps_IDs (fl : mongo.Faults) (w : World) (subs : models.Subscription) :
    (repository.Update fl w subs).2.docs.map (·.SubscriptionID)
      = w.docs.map (·.SubscriptionID) := by
  rw [Update_snd]
  unfold mongo.ReplaceOne
  cases fl.replaceOne with
  | some e => rfl
  | none =>
    simp only []
    cases w.docs.find? (mongo.Filter.subscriptionId subs.SubscriptionID).matches with
    | none => rfl
    | some old =>
      simp only []
      by_cases hc : subs.ID ≠ 0 ∧ subs.ID ≠ old.ID
      · rw [if_pos hc]; rfl
      · rw [if_neg hc]
        exact map_replaceFirst _ _ _ (fun x hx => by
          simp only [mongo.Filter.matches, beq_iff_eq] at hx
          exact hx.symm) w.docs

/-- `Update` preserves uniqueness, whatever the storage does. -/
theorem Update_preserves_Unique (fl : mongo.Faults) (w : World) (subs : models.Subscription)
    (hU : w.Unique) : (repository.Update fl w subs).2.Unique := by
  unfold World.Unique at hU ⊢
  rw [Update_keeps_IDs]
  exact hU

/-- `Delete` preserves uniqueness, whatever the storage does. -/
theorem Delete_preserves_Unique (fl : mongo.Faults) (w : World) (id : String)
    (hU : w.Unique) : (repository.Delete fl w id).2.Unique := by
  unfold World.Unique at hU ⊢
  unfold repository.Delete mongo.DeleteOne
  cases fl.deleteOne with
  | some e => cases e <;> exact hU
  | none => exact List.Nodup.sublist (List.Sublist.map _ (List.eraseP_sublist _)) hU

/-- The driver's insert either leaves the documents as they were or appends one document
with the subscription ID of the document passed in. -/
theorem InsertOne_docs (w : World) (fault : Option mongo.DriverError)
    (d : models.Subscription) :
    (mongo.InsertOne w fault d).2.docs = w.docs ∨
      ∃ x : models.Subscription, x.SubscriptionID = d.SubscriptionID ∧
        (mongo.InsertOne w fault d).2.docs = w.docs ++ [x] := by
  unfold mongo.InsertOne
  cases fault with
  | some e => exact Or.inl rfl
  | none =>
    simp only []
    by_cases h0 : d.ID = 0
    · rw [if_pos h0]
      exact Or.inr ⟨{ d with ID := mongo.freshID w.docs }, rfl, rfl⟩
    · rw [if_neg h0]
      by_cases h1 : (w.docs.any fun x => x.ID == d.ID) = true
      · rw [if_pos h1]
        exact Or.inl rfl
      · rw [if_neg h1]
        exact Or.inr ⟨d, rfl, rfl⟩

/-- `Save` preserves uniqueness when the storage answers the look-up. -/
theorem Save_preserves_Unique (fl : mongo.Faults) (w : World) (subs : models.Subscription)
    (hFind : fl.findOne = none) (hU : w.Unique) : (repository.Save fl w subs).2.Unique := by
  cases hf : w.docs.find? (mongo.Filter.subscriptionId subs.SubscriptionID).matches with
  | some old =>
    rw [Save_present fl w subs old hFind hf]
    exact hU
  | none =>
    have hnot : subs.SubscriptionID ∉ w.docs.map (·.SubscriptionID) := by
      intro hmem
      obtain ⟨d, hd, hid⟩ := List.mem_map.mp hmem
      have := (List.find?_eq_none.mp hf) d hd
      simp [mongo.Filter.matches, hid] at this
    have hsnd : (repository.Save fl w subs).2 =
        (mongo.InsertOne (w.log (.FindOne (.subscriptionId subs.SubscriptionID)))
          fl.insertOne subs).2 := by
      unfold repository.Save repository.Get mongo.FindOne
      rw [hFind]
      simp only []
      rw [hf]
      simp only []
      cases mongo.InsertOne (w.log (.FindOne (.subscriptionId subs.SubscriptionID)))
        fl.insertOne subs with
      | mk e w1 => cases e <;> rfl
    rw [hsnd]
    rcases InsertOne_docs (w.log (.FindOne (.subscriptionId subs.SubscriptionID)))
      fl.insertOne subs with h | ⟨x, hx, h⟩
    · exact Unique_of_docs_eq w _ h hU
    · unfold World.Unique at hU ⊢
      rw [h]
      show ((w.docs ++ [x]).map (·.SubscriptionID)).Nodup
      rw [List.map_append]
      refine List.Nodup.append hU (by simp) ?_
      simp only [List.map_cons, List.map_nil, List.disjoint_singleton, hx]
      exact hnot

/-- The provider look-ups and the look-up by subscription ID leave the documents as they
were. -/
theorem lookups_keep_docs (env : Env) (w : World) (id : String) :
    (services.GetCustomer env w id).2.docs = w.docs ∧
      (services.GetInvoice env w id).2.docs = w.docs ∧
      (services.GetSubscription env w id).2.docs = w.docs ∧
      (repository.Get env.faults w id).2.docs = w.docs := by
  refine ⟨?_, ?_, ?_, ?_⟩
  · unfold services.GetCustomer
    cases env.api.customerGet id <;> rfl
  · unfold services.GetInvoice
    cases env.api.invoiceGet id <;> rfl
  · unfold services.GetSubscription
    cases env.api.subscriptionGet id <;> rfl
  · unfold repository.Get mongo.FindOne
    cases env.faults.findOne with
    | some e => cases e <;> rfl
    | none =>
      simp only []
      cases w.docs.find? (mongo.Filter.subscriptionId id).matches <;> rfl

/-- Checkout completion preserves uniqueness when the storage answers the look-up. -/
theorem handleSubscriptionPaymentCompletion_preserves_Unique (env : Env) (w : World)
    (cs : stripe.CheckoutSession) (hFind : env.faults.findOne = none) (hU : w.Unique) :
    (services.handleSubscriptionPaymentCompletion env w cs).2.Unique := by
  unfold services.handleSubscriptionPaymentCompletion
  cases cs.Customer with
  | none => exact hU
  | some customerRef =>
    simp only []
    have h1 := (lookups_keep_docs env w customerRef.ID).1
    cases hc : services.GetCustomer env w customerRef.ID with
    | mk r1 w1 =>
      rw [hc] at h1
      have hU1 : w1.Unique := Unique_of_docs_eq w w1 h1 hU
      cases r1 with
      | error err => exact hU1
      | ok customerData =>
        simp only []
        by_cases hu : cs.ClientReferenceID = ""
        · rw [if_pos hu]; exact hU1
        · rw [if_neg hu]
          cases cs.Invoice with
          | none => exact hU1
          | some invoiceRef =>
            simp only []
            have h2 := (lookups_keep_docs env w1 invoiceRef.ID).2.1
            cases hi : services.GetInvoice env w1 invoiceRef.ID with
            | mk r2 w2 =>
              rw [hi] at h2
              have hU2 : w2.Unique := Unique_of_docs_eq w1 w2 h2 hU1
              cases r2 with
              | error err => exact hU2
              | ok invoiceData =>
                simp only []
                cases cs.Subscription with
                | none => exact hU2
                | some subscriptionRef =>
                  simp only []
                  have h3 := (lookups_keep_docs env w2 subscriptionRef.ID).2.2.1
                  cases hs : services.GetSubscription env w2 subscriptionRef.ID with
                  | mk r3 w3 =>
                    rw [hs] at h3
                    have hU3 : w3.Unique := Unique_of_docs_eq w2 w3 h3 hU2
                    cases r3 with
                    | error err => exact hU3
                    | ok subscriptionData =>
                      simp only []
                      cases services.firstItem subscriptionData with
                      | none => exact hU3
                      | some item =>
                        simp only []
                        cases services.productID item with
                        | none => exact hU3
                        | some productId =>
                          simp only []
                          have hU4 := Save_preserves_Unique env.faults w3
                            (services.checkoutRecord env.now cs customerData invoiceData
                              subscriptionData item productId) hFind hU3
                          cases hsave : repository.Save env.faults w3
                            (services.checkoutRecord env.now cs customerData invoiceData
                              subscriptionData item productId) with
                          | mk r4 w4 =>
                            rw [hsave] at hU4
                            cases r4 with
                            | none => exact hU4
                            | some err =>
                              simp only []
                              have hU5 := Update_preserves_Unique env.faults w4
                                (services.checkoutRecord env.now cs customerData invoiceData
                                  subscriptionData item productId) hU4
                              cases hupd : repository.Update env.faults w4
                                (services.checkoutRecord env.now cs customerData invoiceData
                                  subscriptionData item productId) with
                              | mk r5 w5 =>
                                rw [hupd] at hU5
                                cases r5 <;> exact hU5

/-- Subscription update preserves uniqueness, whatever the provider and the storage do. -/
theorem handleSubscriptionUpdate_preserves_Unique (env : Env) (w : World)
    (sub : stripe.Subscription) (hU : w.Unique) :
    (services.handleSubscriptionUpdate env w sub).2.Unique := by
  unfold services.handleSubscriptionUpdate
  cases services.firstItem sub with
  | none => exact hU
  | some item =>
    simp only []
    cases sub.LatestInvoice with
    | none => exact hU
    | some invoiceRef =>
      simp only []
      have h1 := (lookups_keep_docs env w invoiceRef.ID).2.1
      cases hi : services.GetInvoice env w invoiceRef.ID with
      | mk r1 w1 =>
        rw [hi] at h1
        have hU1 : w1.Unique := Unique_of_docs_eq w w1 h1 hU
        cases r1 with
        | error err => exact hU1
        | ok invoiceData =>
          simp only []
          have h2 := (lookups_keep_docs env w1 sub.ID).2.2.2
          cases hg : repository.Get env.faults w1 sub.ID with
          | mk r2 w2 =>
            rw [hg] at h2
            have hU2 : w2.Unique := Unique_of_docs_eq w1 w2 h2 hU1
            cases r2 with
            | error err => exact hU2
            | ok subscriptionData =>
              simp only []
              cases services.productID item with
              | none => exact hU2
              | some productId =>
                simp only []
                have hU3 := Update_preserves_Unique env.faults w2
                  (services.updatedRecord env.now subscriptionData sub invoiceData item
                    productId) hU2
                cases hupd : repository.Update env.faults w2
                  (services.updatedRecord env.now subscriptionData sub invoiceData item
                    productId) with
                | mk r3 w3 =>
                  rw [hupd] at hU3
                  have hupd1 : repository.Update env.faults w2
                      { subscriptionData with
                        Plan := { ProductId := productId,
                                  Price := services.planPrice invoiceData.Total,
                                  SessionId := subscriptionData.Plan.SessionId }
                        InvoicePDF := invoiceData.InvoicePDF
                        InvoiceLink := invoiceData.HostedInvoiceURL
                        InvoiceNumber := invoiceData.Number
                        Status := sub.Status
                        EndsAt := services.expireDateTimestamp item.CurrentPeriodEnd
                        RenewsAt := services.expireDateTimestamp item.CurrentPeriodEnd
                        UpdatedAt := time.UnixMilli env.now
                        IsCanceled := sub.CancelAtPeriodEnd } = (r3, w3) := hupd
                  rw [hupd1]
                  cases r3 <;> exact hU3

/-- Subscription cancellation preserves uniqueness, whatever the storage does. -/
theorem handleSubscriptionCancellation_preserves_Unique (env : Env) (w : World)
    (sub : stripe.Subscription) (hU : w.Unique) :
    (services.handleSubscriptionCancellation env w sub).2.Unique := by
  unfold services.handleSubscriptionCancellation
  have h1 := (lookups_keep_docs env w sub.ID).2.2.2
  cases hg : repository.Get env.faults w sub.ID with
  | mk r1 w1 =>
    rw [hg] at h1
    have hU1 : w1.Unique := Unique_of_docs_eq w w1 h1 hU
    cases r1 with
    | error err => exact hU1
    | ok found =>
      simp only []
      have hU2 := Delete_preserves_Unique env.faults w1 sub.ID hU1
      cases hd : repository.Delete env.faults w1 sub.ID with
      | mk r2 w2 =>
        rw [hd] at hU2
        cases r2 with
        | none => exact hU2
        | some err =>
          simp only []
          split <;> exact hU2

/-- The invariant in runs whose look-ups the storage answers: a collection with at most one
record per subscription ID still has at most one record per subscription ID after `Save`,
after `Update`, after `Delete` and after `HandleEvents` on any event, and `Save` of a record
whose subscription ID is held fails with `ErrSubscriptionAlreadyExists` and leaves the
documents as they were. `Update` and `Delete` keep the invariant whatever the storage does;
for `Save` and `HandleEvents` the look-up by subscription ID is assumed to be answered
(with the record or with not-found). -/
theorem Unique_invariant (env : Env) (w : World) (hU : w.Unique) :
    (∀ subs, env.faults.findOne = none → (repository.Save env.faults w subs).2.Unique) ∧
      (∀ subs, (repository.Update env.faults w subs).2.Unique) ∧
      (∀ id, (repository.Delete env.faults w id).2.Unique) ∧
      (∀ e, env.faults.findOne = none → (services.HandleEvents env w e).2.Unique) ∧
      (∀ subs, env.faults.findOne = none → w.recordsOf subs.SubscriptionID ≠ [] →
        (repository.Save env.faults w subs).1
            = some GoError.repository_ErrSubscriptionAlreadyExists ∧
          (repository.Save env.faults w subs).2.docs = w.docs) := by
  refine ⟨fun subs hF => Save_preserves_Unique env.faults w subs hF hU,
    fun subs => Update_preserves_Unique env.faults w subs hU,
    fun id => Delete_preserves_Unique env.faults w id hU, ?_, ?_⟩
  · intro e hF
    unfold services.HandleEvents
    split
    · cases e.Data.asSubscription with
      | none => exact hU
      | some sub =>
        simp only []
        split
        · exact handleSubscriptionUpdate_preserves_Unique env w sub hU
        · exact hU
    · split
      · cases e.Data.asSubscription with
        | none => exact hU
        | some sub =>
          simp only []
          split
          · exact handleSubscriptionCancellation_preserves_Unique env w sub hU
          · exact hU
      · split
        · cases e.Data.asCheckoutSession with
          | none => exact hU
          | some cs =>
            simp only []
            split
            · exact handleSubscriptionPaymentCompletion_preserves_Unique env w cs hF hU
            · exact hU
        · exact hU
  · intro subs hF hne
    cases hrec : w.recordsOf subs.SubscriptionID with
    | nil => exact absurd hrec hne
    | cons old rest =>
      have hfind : w.docs.find? (mongo.Filter.subscriptionId subs.SubscriptionID).matches
          = some old := by
        rw [find?_eq_head?_filter, matches_subscriptionId]
        simp only [World.recordsOf] at hrec
        rw [hrec]; rfl
      rw [Save_present env.faults w subs old hF hfind]
      exact ⟨rfl, rfl⟩

/-- An instance of `Unique_invariant`: on the collection holding one record for `sub_1` and
one for `sub_2`, the checkout event for `sub_1` keeps the invariant, and `Save` of a record
for `sub_1` is refused with `ErrSubscriptionAlreadyExists`. -/
theorem Unique_invariant_witness :
    Examples.twoRecords.Unique ∧
      (services.HandleEvents Examples.env1 Examples.twoRecords Examples.checkoutEvent).2.Unique ∧
      (repository.Save Examples.env1.faults Examples.twoRecords Examples.record1).1
        = some GoError.repository_ErrSubscriptionAlreadyExists ∧
      (repository.Save Examples.env1.faults Examples.twoRecords Examples.record1).2.docs
        = Examples.twoRecords.docs :=
  ⟨by decide,
    (Unique_invariant Examples.env1 Examples.twoRecords (by decide)).2.2.2.1
      Examples.checkoutEvent rfl,
    (Unique_invariant Examples.env1 Examples.twoRecords (by decide)).2.2.2.2
      Examples.record1 rfl (by decide)⟩

/-- C13 (the code at the failing input): the collection holds one record for `sub_1` and one
for `sub_2`, and the storage fails the look-up of `Save` (a time-out, say) and lets the
insert through. `Save` of a record for `sub_1` does not return
`ErrSubscriptionAlreadyExists`: it returns `nil` and inserts a second record for `sub_1`,
so the invariant is lost; the same happens when `HandleEvents` handles the checkout event
for `sub_1` on that storage. -/
theorem Save_after_failed_lookup :
    Examples.twoRecords.Unique ∧
      Examples.twoRecords.recordsOf Examples.record1.SubscriptionID
        = [Examples.recordMidSecond] ∧
      (repository.Save Examples.envLookupFails.faults Examples.twoRecords Examples.record1).1
        = none ∧
      ((repository.Save Examples.envLookupFails.faults Examples.twoRecords
        Examples.record1).2.recordsOf "sub_1").length = 2 ∧
      ¬ (repository.Save Examples.envLookupFails.faults Examples.twoRecords
        Examples.record1).2.Unique ∧
      (services.HandleEvents Examples.envLookupFails Examples.twoRecords
        Examples.checkoutEvent).1 = Outcome.ok ∧
      ¬ (services.HandleEvents Examples.envLookupFails Examples.twoRecords
        Examples.checkoutEvent).2.Unique := by
  decide

/-! ## Plan price -/

/-- The price that the handlers store is always a whole number: the invoice total is
divided by 100 as an integer before it is converted to `float32`. -/
theorem planPrice_integral (total : Int) : ∃ k : Int, services.planPrice total = (k : Rat) := by
  unfold services.planPrice float32OfInt64
  simp only []
  split
  · exact ⟨_, rfl⟩
  · exact ⟨_, rfl⟩

/-- C12 (the code at the failing input): for an invoice total of 1999 minor units the price
is 19, which is off from 19.99 by more than a cent; this is the price that checkout
completion stores for the invoice `inv_1` and that subscription update writes into the
record. -/
theorem planPrice_drops_cents :
    services.planPrice 1999 = 19 ∧
      ¬ (|services.planPrice 1999 - 1999 / 100| < 1 / 100) ∧
      Examples.invoice1.Total = 1999 ∧
      (services.HandleEvents Examples.env1 Examples.emptyWorld
        Examples.checkoutEvent).2.docs.map (·.Plan.Price) = [services.planPrice 1999] ∧
      (services.updatedRecord Examples.env1.now Examples.recordMidSecond
        Examples.subscription1 Examples.invoice1 Examples.item1 "prod_1").Plan.Price
          = services.planPrice 1999 := by
  have h : services.planPrice 1999 = 19 := by
    simp [services.planPrice, float32OfInt64, Int.tdiv]
  refine ⟨h, ?_, rfl, rfl, rfl⟩
  rw [h]
  norm_num [abs_lt]

/-! ## Test-mode flag -/

/-- The record built at checkout carries the invoice's `Livemode` as its `IsTest`. -/
theorem checkoutRecord_IsTest (now : time.Time) (cs : stripe.CheckoutSession)
    (customerData : stripe.Customer) (invoiceData : stripe.Invoice)
    (subscriptionData : stripe.Subscription) (item : stripe.SubscriptionItem)
    (productId : String) :
    (services.checkoutRecord now cs customerData invoiceData subscriptionData item
      productId).IsTest = invoiceData.Livemode := rfl

/-- C14 (the code at the failing input): the checkout of the scenario, whose invoice
`inv_1` is a live-mode invoice, stores a record with `IsTest = true`. -/
theorem checkout_IsTest_of_live_invoice :
    Examples.invoice1.Livemode = true ∧
      (services.HandleEvents Examples.env1 Examples.emptyWorld
        Examples.checkoutEvent).1 = Outcome.ok ∧
      (services.HandleEvents Examples.env1 Examples.emptyWorld
        Examples.checkoutEvent).2.docs.map (·.IsTest) = [true] := by
  decide

/-! ## Success without a stored record -/

/-- C15 (the code at the failing input): the checkout of the scenario on the empty
collection, on a storage layer that fails the insert. `Save` fails, the handler falls back
to `Update`, the replacement matches no record and reports no error, and `HandleEvents`
returns success while the collection is still empty. -/
theorem checkout_success_without_record :
    (services.HandleEvents Examples.envInsertFails Examples.emptyWorld
        Examples.checkoutEvent).1 = Outcome.ok ∧
      (services.HandleEvents Examples.envInsertFails Examples.emptyWorld
        Examples.checkoutEvent).2.docs = [] ∧
      (services.HandleEvents Examples.envInsertFails Examples.emptyWorld
        Examples.checkoutEvent).2.calls =
          [.customerGet "cus_1", .invoiceGet "inv_1", .subscriptionGet "sub_1",
           .FindOne (.subscriptionId "sub_1"), .InsertOne Examples.record1,
           .ReplaceOne (.subscriptionId "sub_1") Examples.record1] := by
  decide

/-! ## Run-time panics -/

/-- C16 (the code at the failing inputs): `HandleEvents` panics on an update event whose
item list is empty (index out of range) or whose latest-invoice reference is absent, and
on a subscription-mode checkout event whose customer, invoice or subscription reference is
absent (nil dereference); the provider answers every look-up that is made. -/
theorem HandleEvents_panics :
    (services.HandleEvents Examples.env1 Examples.twoRecords
        Examples.updatedEventNoItems).1 = Outcome.panic ∧
      (services.HandleEvents Examples.env1 Examples.twoRecords
        Examples.updatedEventNoInvoice).1 = Outcome.panic ∧
      (services.HandleEvents Examples.env1 Examples.emptyWorld
        Examples.checkoutEventNoCustomer).1 = Outcome.panic ∧
      (services.HandleEvents Examples.env1 Examples.emptyWorld
        Examples.checkoutEventNoInvoice).1 = Outcome.panic ∧
      (services.HandleEvents Examples.env1 Examples.emptyWorld
        Examples.checkoutEventNoSubscription).1 = Outcome.panic := by
  decide

/-! ## Conditions of the amended claims -/

/-- C2 (counterexample): the checkout of the scenario, with all fetches succeeding, one
item and no record for `sub_1` in the (empty) collection, but with a period end of
9223372036854776 s. `HandleEvents` returns success and stores one record whose `EndsAt` and
`RenewsAt` are -9223372036811575616, not `CurrentPeriodEnd * 1000 + 43200000`: the
computation is made in `int64` and wraps around. -/
theorem HandleEvents_checkout_period_end_overflow :
    services.firstItem Examples.subscriptionFar = some Examples.itemFar ∧
      Examples.emptyWorld.recordsOf Examples.subscriptionFar.ID = [] ∧
      (services.HandleEvents Examples.envFar Examples.emptyWorld Examples.checkoutEvent).1
        = Outcome.ok ∧
      (services.HandleEvents Examples.envFar Examples.emptyWorld
        Examples.checkoutEvent).2.docs.map (fun r => (r.EndsAt, r.RenewsAt))
          = [(-9223372036811575616, -9223372036811575616)] ∧
      Examples.itemFar.CurrentPeriodEnd * 1000 + 43200000 = 9223372036897976000 := by
  decide

/-- The other two conditions of the amended C2 are needed as well. When the storage fails
the insert, the checkout of the scenario on a collection without record for `sub_1`
returns success and no record for `sub_1` is stored; when the first item of the fetched
subscription has no price, the run panics. -/
theorem HandleEvents_checkout_conditions_needed :
    (Examples.onlyOther.recordsOf "sub_1" = [] ∧
        (services.HandleEvents Examples.envInsertFails Examples.onlyOther
          Examples.checkoutEvent).1 = Outcome.ok ∧
        (services.HandleEvents Examples.envInsertFails Examples.onlyOther
          Examples.checkoutEvent).2.recordsOf "sub_1" = []) ∧
      (services.firstItem Examples.subscriptionNoPrice = some Examples.itemNoPrice ∧
        (services.HandleEvents Examples.envNoPrice Examples.emptyWorld
          Examples.checkoutEvent).1 = Outcome.panic) := by
  decide

/-- The other conditions of the amended C3 are needed as well. When the storage fails the
look-up of the second delivery, both runs return success and two records for `sub_1`
remain; when the fetched subscription has no item, the run panics. -/
theorem HandleEvents_checkout_twice_conditions_needed :
    ((services.HandleEvents Examples.env1 Examples.emptyWorld Examples.checkoutEvent).1
          = Outcome.ok ∧
        (services.HandleEvents Examples.envLookupFailsLater
          (services.HandleEvents Examples.env1 Examples.emptyWorld Examples.checkoutEvent).2
          Examples.checkoutEvent).1 = Outcome.ok ∧
        ((services.HandleEvents Examples.envLookupFailsLater
          (services.HandleEvents Examples.env1 Examples.emptyWorld Examples.checkoutEvent).2
          Examples.checkoutEvent).2.recordsOf "sub_1").length = 2) ∧
      (services.HandleEvents Examples.envNoItems Examples.emptyWorld
        Examples.checkoutEvent).1 = Outcome.panic := by
  decide

/-- The conditions of the amended C11 on the storage and on the item are needed. For the
update event of `sub_1` on the collection holding `sub_1` and `sub_2`: when the storage
fails the look-up, `HandleEvents` returns `ErrSubscriptionNotFound`; when it fails the
replacement, `HandleEvents` returns `ErrorUpdatingSubscription`; in both cases the documents
are unchanged. When the first item has no price, the run panics and the documents are
unchanged. -/
theorem HandleEvents_updated_conditions_needed :
    ((services.HandleEvents Examples.envLookupFails Examples.twoRecords
          Examples.updatedEvent).1 = Outcome.err GoError.ErrSubscriptionNotFound ∧
        (services.HandleEvents Examples.envLookupFails Examples.twoRecords
          Examples.updatedEvent).2.docs = Examples.twoRecords.docs) ∧
      ((services.HandleEvents Examples.envReplaceFails Examples.twoRecords
          Examples.updatedEvent).1
          = Outcome.err GoError.repository_ErrorUpdatingSubscription ∧
        (services.HandleEvents Examples.envReplaceFails Examples.twoRecords
          Examples.updatedEvent).2.docs = Examples.twoRecords.docs) ∧
      ((services.HandleEvents Examples.env1 Examples.twoRecords
          Examples.updatedEventNoPrice).1 = Outcome.panic ∧
        (services.HandleEvents Examples.env1 Examples.twoRecords
          Examples.updatedEventNoPrice).2.docs = Examples.twoRecords.docs) := by
  decide
